import Mathlib

/-
  Shallow embedding of the ESFMu emulator core, translated from
  src/core/esfm.c and src/core/esfm_registers.c (with struct layouts from
  src/core/esfm.h).

  Integer widths: the default build defines __ESFM_FAST_TYPES, under which
  the uint9 .. uint36 typedefs are uint_fast16_t / uint_fast32_t /
  uint_fast64_t, and int12 / int16 / int32 are int_fast16_t / int_fast32_t.
  On the usual LP64 targets these are 64-bit, and bool / uint2 .. uint8 are
  uint_fast8_t (8-bit).  Unsigned 64-bit arithmetic is modelled as Nat with
  an explicit reduction modulo 2^64 at the assignments where a value can
  actually exceed 64 bits; signed 64-bit quantities are modelled as Int
  (every signed value produced by the core is far below 2^63 in magnitude,
  so no signed wrap can occur).  The C pointers esfm_slot_internal.mod_input
  and esfm_slot_internal.key_on are only ever assigned in ESFM_init, and
  always point into the slot's own channel, so they are modelled as small
  selector values dereferenced against the channel.
-/

set_option maxHeartbeats 4000000
set_option maxRecDepth 100000

namespace ESFM

/-- Modulus of the 64-bit unsigned fast types. -/
def U64 : Nat := 2 ^ 64

/- logsin table (esfm.c) -/
def logsinrom : Array Nat := #[
  0x859, 0x6c3, 0x607, 0x58b, 0x52e, 0x4e4, 0x4a6, 0x471,
  0x443, 0x41a, 0x3f5, 0x3d3, 0x3b5, 0x398, 0x37e, 0x365,
  0x34e, 0x339, 0x324, 0x311, 0x2ff, 0x2ed, 0x2dc, 0x2cd,
  0x2bd, 0x2af, 0x2a0, 0x293, 0x286, 0x279, 0x26d, 0x261,
  0x256, 0x24b, 0x240, 0x236, 0x22c, 0x222, 0x218, 0x20f,
  0x206, 0x1fd, 0x1f5, 0x1ec, 0x1e4, 0x1dc, 0x1d4, 0x1cd,
  0x1c5, 0x1be, 0x1b7, 0x1b0, 0x1a9, 0x1a2, 0x19b, 0x195,
  0x18f, 0x188, 0x182, 0x17c, 0x177, 0x171, 0x16b, 0x166,
  0x160, 0x15b, 0x155, 0x150, 0x14b, 0x146, 0x141, 0x13c,
  0x137, 0x133, 0x12e, 0x129, 0x125, 0x121, 0x11c, 0x118,
  0x114, 0x10f, 0x10b, 0x107, 0x103, 0x0ff, 0x0fb, 0x0f8,
  0x0f4, 0x0f0, 0x0ec, 0x0e9, 0x0e5, 0x0e2, 0x0de, 0x0db,
  0x0d7, 0x0d4, 0x0d1, 0x0cd, 0x0ca, 0x0c7, 0x0c4, 0x0c1,
  0x0be, 0x0bb, 0x0b8, 0x0b5, 0x0b2, 0x0af, 0x0ac, 0x0a9,
  0x0a7, 0x0a4, 0x0a1, 0x09f, 0x09c, 0x099, 0x097, 0x094,
  0x092, 0x08f, 0x08d, 0x08a, 0x088, 0x086, 0x083, 0x081,
  0x07f, 0x07d, 0x07a, 0x078, 0x076, 0x074, 0x072, 0x070,
  0x06e, 0x06c, 0x06a, 0x068, 0x066, 0x064, 0x062, 0x060,
  0x05e, 0x05c, 0x05b, 0x059, 0x057, 0x055, 0x053, 0x052,
  0x050, 0x04e, 0x04d, 0x04b, 0x04a, 0x048, 0x046, 0x045,
  0x043, 0x042, 0x040, 0x03f, 0x03e, 0x03c, 0x03b, 0x039,
  0x038, 0x037, 0x035, 0x034, 0x033, 0x031, 0x030, 0x02f,
  0x02e, 0x02d, 0x02b, 0x02a, 0x029, 0x028, 0x027, 0x026,
  0x025, 0x024, 0x023, 0x022, 0x021, 0x020, 0x01f, 0x01e,
  0x01d, 0x01c, 0x01b, 0x01a, 0x019, 0x018, 0x017, 0x017,
  0x016, 0x015, 0x014, 0x014, 0x013, 0x012, 0x011, 0x011,
  0x010, 0x00f, 0x00f, 0x00e, 0x00d, 0x00d, 0x00c, 0x00c,
  0x00b, 0x00a, 0x00a, 0x009, 0x009, 0x008, 0x008, 0x007,
  0x007, 0x007, 0x006, 0x006, 0x005, 0x005, 0x005, 0x004,
  0x004, 0x004, 0x003, 0x003, 0x003, 0x002, 0x002, 0x002,
  0x002, 0x001, 0x001, 0x001, 0x001, 0x001, 0x001, 0x001,
  0x000, 0x000, 0x000, 0x000, 0x000, 0x000, 0x000, 0x000]

/- exp table (esfm.c) -/
def exprom : Array Nat := #[
  0x7fa, 0x7f5, 0x7ef, 0x7ea, 0x7e4, 0x7df, 0x7da, 0x7d4,
  0x7cf, 0x7c9, 0x7c4, 0x7bf, 0x7b9, 0x7b4, 0x7ae, 0x7a9,
  0x7a4, 0x79f, 0x799, 0x794, 0x78f, 0x78a, 0x784, 0x77f,
  0x77a, 0x775, 0x770, 0x76a, 0x765, 0x760, 0x75b, 0x756,
  0x751, 0x74c, 0x747, 0x742, 0x73d, 0x738, 0x733, 0x72e,
  0x729, 0x724, 0x71f, 0x71a, 0x715, 0x710, 0x70b, 0x706,
  0x702, 0x6fd, 0x6f8, 0x6f3, 0x6ee, 0x6e9, 0x6e5, 0x6e0,
  0x6db, 0x6d6, 0x6d2, 0x6cd, 0x6c8, 0x6c4, 0x6bf, 0x6ba,
  0x6b5, 0x6b1, 0x6ac, 0x6a8, 0x6a3, 0x69e, 0x69a, 0x695,
  0x691, 0x68c, 0x688, 0x683, 0x67f, 0x67a, 0x676, 0x671,
  0x66d, 0x668, 0x664, 0x65f, 0x65b, 0x657, 0x652, 0x64e,
  0x649, 0x645, 0x641, 0x63c, 0x638, 0x634, 0x630, 0x62b,
  0x627, 0x623, 0x61e, 0x61a, 0x616, 0x612, 0x60e, 0x609,
  0x605, 0x601, 0x5fd, 0x5f9, 0x5f5, 0x5f0, 0x5ec, 0x5e8,
  0x5e4, 0x5e0, 0x5dc, 0x5d8, 0x5d4, 0x5d0, 0x5cc, 0x5c8,
  0x5c4, 0x5c0, 0x5bc, 0x5b8, 0x5b4, 0x5b0, 0x5ac, 0x5a8,
  0x5a4, 0x5a0, 0x59c, 0x599, 0x595, 0x591, 0x58d, 0x589,
  0x585, 0x581, 0x57e, 0x57a, 0x576, 0x572, 0x56f, 0x56b,
  0x567, 0x563, 0x560, 0x55c, 0x558, 0x554, 0x551, 0x54d,
  0x549, 0x546, 0x542, 0x53e, 0x53b, 0x537, 0x534, 0x530,
  0x52c, 0x529, 0x525, 0x522, 0x51e, 0x51b, 0x517, 0x514,
  0x510, 0x50c, 0x509, 0x506, 0x502, 0x4ff, 0x4fb, 0x4f8,
  0x4f4, 0x4f1, 0x4ed, 0x4ea, 0x4e7, 0x4e3, 0x4e0, 0x4dc,
  0x4d9, 0x4d6, 0x4d2, 0x4cf, 0x4cc, 0x4c8, 0x4c5, 0x4c2,
  0x4be, 0x4bb, 0x4b8, 0x4b5, 0x4b1, 0x4ae, 0x4ab, 0x4a8,
  0x4a4, 0x4a1, 0x49e, 0x49b, 0x498, 0x494, 0x491, 0x48e,
  0x48b, 0x488, 0x485, 0x482, 0x47e, 0x47b, 0x478, 0x475,
  0x472, 0x46f, 0x46c, 0x469, 0x466, 0x463, 0x460, 0x45d,
  0x45a, 0x457, 0x454, 0x451, 0x44e, 0x44b, 0x448, 0x445,
  0x442, 0x43f, 0x43c, 0x439, 0x436, 0x433, 0x430, 0x42d,
  0x42a, 0x428, 0x425, 0x422, 0x41f, 0x41c, 0x419, 0x416,
  0x414, 0x411, 0x40e, 0x40b, 0x408, 0x406, 0x403, 0x400]

/- freq mult table multiplied by 2 (esfm.c) -/
def mt : Array Nat := #[1, 2, 4, 6, 8, 10, 12, 14, 16, 18, 20, 20, 24, 24, 30, 30]

def kslshift : Array Nat := #[8, 1, 2, 0]

/- envelope generator constants (esfm.c) -/
def eg_incstep : Array (Array Nat) :=
  #[#[0, 0, 0, 0], #[1, 0, 0, 0], #[1, 0, 1, 0], #[1, 1, 1, 0]]

/- ksl table (esfm_registers.c); the C element type is the signed int16 -/
def kslrom : Array Int := #[0, 32, 40, 45, 48, 51, 53, 55, 56, 58, 59, 60, 61, 62, 63, 64]

/-- Target of the esfm_slot_internal.mod_input pointer: ESFM_init points it at
the feedback_buf of slot 0 or at the output of the preceding slot, always
within the slot's own channel. -/
inductive ModPtr where
  | fbOf (i : Nat)
  | outOf (i : Nat)
deriving DecidableEq

/-- Target of the esfm_slot_internal.key_on pointer: the channel's key_on or
its key_on_2 field. -/
inductive KeyPtr where
  | keyOn
  | keyOn2
deriving DecidableEq

/-- esfm_slot_internal (esfm.h), restricted to the fields the core reads or
writes.  eg_state uses the eg_states encoding: 0 = EG_ATTACK, 1 = EG_DECAY,
2 = EG_SUSTAIN, 3 = EG_RELEASE. -/
structure SlotIn where
  eg_position : Nat
  eg_ksl_offset : Nat
  eg_output : Nat
  keyscale : Nat
  output : Int
  prev_output : Int
  feedback_buf : Int
  mod_input : ModPtr
  phase_acc : Nat
  phase_out : Nat
  phase_reset : Bool
  key_on : KeyPtr
  eg_state : Nat
  eg_delay_run : Bool
  eg_delay_counter : Nat
deriving DecidableEq

/-- esfm_slot (esfm.h), restricted to the fields the core reads or writes.
The nested internal state (the C field named in) is called sIn here. -/
structure Slot where
  slot_idx : Nat
  out_enable : Int × Int
  f_num : Nat
  block : Nat
  output_level : Nat
  mod_in_level : Nat
  t_level : Nat
  mult : Nat
  waveform : Nat
  rhy_noise : Nat
  attack_rate : Nat
  decay_rate : Nat
  sustain_lvl : Nat
  release_rate : Nat
  tremolo_en : Bool
  tremolo_deep : Bool
  vibrato_en : Bool
  vibrato_deep : Bool
  env_sustaining : Bool
  ksr : Bool
  ksl : Nat
  env_delay : Nat
  sIn : SlotIn
deriving DecidableEq

/-- esfm_channel (esfm.h). -/
structure Channel where
  slots : Fin 4 → Slot
  output : Int × Int
  key_on : Bool
  emu_mode_4op_enable : Bool
  key_on_2 : Bool
  emu_mode_4op_enable_2 : Bool

/-- esfm_chip (esfm.h), restricted to the fields the two core source files
read or write.  The rhythm-mode bits have the bool typedef (uint_fast8_t) in
C and are used as 0/1 numbers, so they are Nat here.  The esfm_registers.c
in this tree stores timer reloads in a two-element timers array and a
test_bit_mute flag, so those appear here as given by that file. -/
structure Chip where
  channels : Fin 18 → Channel
  output_accm : Int × Int
  addr_latch : Nat
  emu_newmode : Bool
  native_mode : Bool
  keyscale_mode : Bool
  eg_timer : Nat
  global_timer : Nat
  eg_clocks : Nat
  eg_tick : Bool
  eg_timer_overflow : Bool
  tremolo : Nat
  tremolo_pos : Nat
  vibrato_pos : Nat
  lfsr : Nat
  rm_hh_bit2 : Nat
  rm_hh_bit3 : Nat
  rm_hh_bit7 : Nat
  rm_hh_bit8 : Nat
  rm_tc_bit3 : Nat
  rm_tc_bit5 : Nat
  timers : Nat × Nat
  timer_enable : Bool × Bool
  timer_mask : Bool × Bool
  timer_overflow : Bool × Bool
  irq_bit : Bool
  test_bit_distort : Bool
  test_bit_attenuate : Bool
  test_bit_mute : Bool

/-- Read the slot array of a channel at a Nat index (all call sites pass
an index below 4). -/
def getSlot (ch : Channel) (i : Nat) : Slot :=
  ch.slots ⟨i % 4, Nat.mod_lt _ (by decide)⟩

/-- Store into the slot array of a channel at a Nat index. -/
def setSlot (ch : Channel) (i : Nat) (s : Slot) : Channel :=
  {ch with slots := fun j => if j.val = i % 4 then s else ch.slots j}

/-- Read the channel array of the chip at a Nat index (all call sites pass
an index below 18). -/
def getCh (c : Chip) (i : Nat) : Channel :=
  c.channels ⟨i % 18, Nat.mod_lt _ (by decide)⟩

/-- Store into the channel array of the chip at a Nat index. -/
def setCh (c : Chip) (i : Nat) (ch : Channel) : Chip :=
  {c with channels := fun j => if j.val = i % 18 then ch else c.channels j}

/-- Dereference a slot's key_on pointer (reads the channel it points into). -/
def readKey (ch : Channel) (p : KeyPtr) : Bool :=
  match p with
  | .keyOn => ch.key_on
  | .keyOn2 => ch.key_on_2

/-- Dereference a slot's mod_input pointer (reads the channel it points
into). -/
def readMod (ch : Channel) (p : ModPtr) : Int :=
  match p with
  | .fbOf i => (getSlot ch i).sIn.feedback_buf
  | .outOf i => (getSlot ch i).sIn.output

/-- ESFM_envelope_calc_exp (esfm.c).  The return value is always
nonnegative, so it is a Nat; the caller converts where needed. -/
def ESFM_envelope_calc_exp (level : Nat) : Nat :=
  let level := if level > 0x1fff then 0x1fff else level
  ((exprom.getD (level &&& 0xff) 0) <<< 1) >>> (level >>> 8)

/-- ESFM_envelope_calc_sin0 (esfm.c).  The xor with neg is performed on the
64-bit unsigned common type in C and the (always below 2^16) result is
returned unchanged through int_fast16_t, hence Nat here; likewise for the
other waveform functions. -/
def ESFM_envelope_calc_sin0 (phase : Nat) (envelope : Nat) : Nat :=
  let phase := phase &&& 0x3ff
  let neg := if phase &&& 0x200 != 0 then 0xffff else 0
  let out := if phase &&& 0x100 != 0 then logsinrom.getD ((phase &&& 0xff) ^^^ 0xff) 0
             else logsinrom.getD (phase &&& 0xff) 0
  (ESFM_envelope_calc_exp ((out + ((envelope <<< 3) % U64)) % U64)) ^^^ neg

/-- ESFM_envelope_calc_sin1 (esfm.c). -/
def ESFM_envelope_calc_sin1 (phase : Nat) (envelope : Nat) : Nat :=
  let phase := phase &&& 0x3ff
  let out := if phase &&& 0x200 != 0 then 0x1000
             else if phase &&& 0x100 != 0 then logsinrom.getD ((phase &&& 0xff) ^^^ 0xff) 0
             else logsinrom.getD (phase &&& 0xff) 0
  ESFM_envelope_calc_exp ((out + ((envelope <<< 3) % U64)) % U64)

/-- ESFM_envelope_calc_sin2 (esfm.c). -/
def ESFM_envelope_calc_sin2 (phase : Nat) (envelope : Nat) : Nat :=
  let phase := phase &&& 0x3ff
  let out := if phase &&& 0x100 != 0 then logsinrom.getD ((phase &&& 0xff) ^^^ 0xff) 0
             else logsinrom.getD (phase &&& 0xff) 0
  ESFM_envelope_calc_exp ((out + ((envelope <<< 3) % U64)) % U64)

/-- ESFM_envelope_calc_sin3 (esfm.c). -/
def ESFM_envelope_calc_sin3 (phase : Nat) (envelope : Nat) : Nat :=
  let phase := phase &&& 0x3ff
  let out := if phase &&& 0x100 != 0 then 0x1000
             else logsinrom.getD (phase &&& 0xff) 0
  ESFM_envelope_calc_exp ((out + ((envelope <<< 3) % U64)) % U64)

/-- ESFM_envelope_calc_sin4 (esfm.c). -/
def ESFM_envelope_calc_sin4 (phase : Nat) (envelope : Nat) : Nat :=
  let phase := phase &&& 0x3ff
  let neg := if phase &&& 0x300 == 0x100 then 0xffff else 0
  let out := if phase &&& 0x200 != 0 then 0x1000
             else if phase &&& 0x80 != 0 then logsinrom.getD (((phase ^^^ 0xff) <<< 1) &&& 0xff) 0
             else logsinrom.getD ((phase <<< 1) &&& 0xff) 0
  (ESFM_envelope_calc_exp ((out + ((envelope <<< 3) % U64)) % U64)) ^^^ neg

/-- ESFM_envelope_calc_sin5 (esfm.c). -/
def ESFM_envelope_calc_sin5 (phase : Nat) (envelope : Nat) : Nat :=
  let phase := phase &&& 0x3ff
  let out := if phase &&& 0x200 != 0 then 0x1000
             else if phase &&& 0x80 != 0 then logsinrom.getD (((phase ^^^ 0xff) <<< 1) &&& 0xff) 0
             else logsinrom.getD ((phase <<< 1) &&& 0xff) 0
  ESFM_envelope_calc_exp ((out + ((envelope <<< 3) % U64)) % U64)

/-- ESFM_envelope_calc_sin6 (esfm.c). -/
def ESFM_envelope_calc_sin6 (phase : Nat) (envelope : Nat) : Nat :=
  let phase := phase &&& 0x3ff
  let neg := if phase &&& 0x200 != 0 then 0xffff else 0
  (ESFM_envelope_calc_exp ((envelope <<< 3) % U64)) ^^^ neg

/-- ESFM_envelope_calc_sin7 (esfm.c). -/
def ESFM_envelope_calc_sin7 (phase : Nat) (envelope : Nat) : Nat :=
  let phase := phase &&& 0x3ff
  let neg := if phase &&& 0x200 != 0 then 0xffff else 0
  let phase := if phase &&& 0x200 != 0 then (phase &&& 0x1ff) ^^^ 0x1ff else phase
  let out := phase <<< 3
  (ESFM_envelope_calc_exp ((out + ((envelope <<< 3) % U64)) % U64)) ^^^ neg

/-- The envelope_sin function-pointer table (esfm.c); waveform is always at
most 7 at every call site. -/
def envelope_sin (waveform : Nat) : Nat → Nat → Nat :=
  if waveform == 0 then ESFM_envelope_calc_sin0
  else if waveform == 1 then ESFM_envelope_calc_sin1
  else if waveform == 2 then ESFM_envelope_calc_sin2
  else if waveform == 3 then ESFM_envelope_calc_sin3
  else if waveform == 4 then ESFM_envelope_calc_sin4
  else if waveform == 5 then ESFM_envelope_calc_sin5
  else if waveform == 6 then ESFM_envelope_calc_sin6
  else ESFM_envelope_calc_sin7

/-- ESFM_envelope_calc (esfm.c).  Reads the chip timer state and the
channel's key-on flags; writes only the slot's internal state. -/
def ESFM_envelope_calc (chip : Chip) (ch : Channel) (slot : Slot) : Slot :=
  let s := slot.sIn
  let keyOn := readKey ch s.key_on
  -- the three eg_output terms live in 64-bit unsigned arithmetic; the
  -- eg_ksl_offset can be a wrapped negative near 2^64, so the sums reduce
  -- modulo 2^64 exactly as the C assignment does
  let eg_output :=
    (s.eg_position + (slot.t_level <<< 2)
      + (s.eg_ksl_offset >>> kslshift.getD slot.ksl 0)) % U64
  let eg_output :=
    if slot.tremolo_en then
      let tremolo := chip.tremolo >>> ((((if slot.tremolo_deep then 0 else 1) : Nat) <<< 1) + 2)
      (eg_output + tremolo) % U64
    else eg_output
  let branch1 := keyOn && (s.eg_state == 3)
  let (eg_delay_run, eg_delay_counter) :=
    if branch1 && !s.eg_delay_run then
      (true, if slot.env_delay != 0 then 0x100 else 0)
    else (s.eg_delay_run, s.eg_delay_counter)
  let (eg_delay_run, eg_delay_counter, reset, reg_rate) :=
    if branch1 then
      if eg_delay_counter == 0 then
        (false, eg_delay_counter, true, slot.attack_rate)
      else
        (eg_delay_run,
         if chip.global_timer &&& (1 <<< slot.env_delay) != 0 then eg_delay_counter - 1
         else eg_delay_counter,
         false, slot.release_rate)
    else
      (eg_delay_run, eg_delay_counter, false,
       if s.eg_state == 0 then slot.attack_rate
       else if s.eg_state == 1 then slot.decay_rate
       else if s.eg_state == 2 then (if !slot.env_sustaining then slot.release_rate else 0)
       else slot.release_rate)
  let phase_reset := reset
  let ks := s.keyscale >>> (((if slot.ksr then 0 else 1) : Nat) <<< 1)
  let nonzero := reg_rate != 0
  let rate := ks + (reg_rate <<< 2)
  let rate_hi := rate >>> 2
  let rate_lo := rate &&& 0x03
  let rate_hi := if rate_hi &&& 0x10 != 0 then 0x0f else rate_hi
  let eg_shift := rate_hi + chip.eg_clocks
  let shift : Nat :=
    if nonzero then
      if rate_hi < 12 then
        if chip.eg_tick then
          if eg_shift == 12 then 1
          else if eg_shift == 13 then (rate_lo >>> 1) &&& 0x01
          else if eg_shift == 14 then rate_lo &&& 0x01
          else 0
        else 0
      else
        let sh := (rate_hi &&& 0x03) + (eg_incstep.getD rate_lo #[]).getD (chip.global_timer &&& 0x03) 0
        let sh := if sh &&& 0x04 != 0 then 0x03 else sh
        if sh == 0 then (if chip.eg_tick then 1 else 0) else sh
    else 0
  let eg_rout := s.eg_position
  let eg_off := (s.eg_position &&& 0x1f8) == 0x1f8
  /- Instant attack -/
  let eg_rout := if reset && (rate_hi == 0x0f) then 0 else eg_rout
  /- Envelope off -/
  let eg_rout := if (s.eg_state != 0) && !reset && eg_off then 0x1ff else eg_rout
  let (eg_state, eg_inc) : Nat × Nat :=
    if s.eg_state == 0 then
      if s.eg_position == 0 then (1, 0)
      else if keyOn && (decide (0 < shift)) && (rate_hi != 0x0f) then
        -- eg_inc = ~eg_position >> (4 - shift): bitwise not of the 64-bit
        -- unsigned eg_position, logically shifted
        (0, ((U64 - 1) - s.eg_position) >>> (4 - shift))
      else (0, 0)
    else if s.eg_state == 1 then
      if (s.eg_position >>> 4) == slot.sustain_lvl then (2, 0)
      else if !eg_off && !reset && (decide (0 < shift)) then (1, 1 <<< (shift - 1))
      else (1, 0)
    else
      (s.eg_state,
       if !eg_off && !reset && (decide (0 < shift)) then 1 <<< (shift - 1) else 0)
  -- (eg_rout + eg_inc) wraps modulo 2^64 before the mask in C, but 512
  -- divides 2^64 so the masked value is unchanged
  let eg_position := (eg_rout + eg_inc) &&& 0x1ff
  /- Key off -/
  let eg_state := if reset then 0 else eg_state
  let (eg_state, eg_delay_run) := if !keyOn then (3, false) else (eg_state, eg_delay_run)
  {slot with sIn := {s with
    eg_output := eg_output, phase_reset := phase_reset, eg_state := eg_state,
    eg_position := eg_position, eg_delay_run := eg_delay_run,
    eg_delay_counter := eg_delay_counter}}

/-- The LFSR update performed at the end of ESFM_phase_generate (esfm.c):
n_bit = ((noise >> 14) ^ noise) & 1; lfsr = (noise >> 1) | (n_bit << 22). -/
def lfsr_update (noise : Nat) : Nat :=
  let n_bit := ((noise >>> 14) ^^^ noise) &&& 0x01
  (noise >>> 1) ||| (n_bit <<< 22)

/-- ESFM_phase_generate (esfm.c).  Returns the updated slot together with
the updated chip (lfsr and the rhythm-mode latch bits). -/
def ESFM_phase_generate (chip : Chip) (ch : Channel) (slot : Slot) : Slot × Chip :=
  let f_num : Int := slot.f_num
  let f_num :=
    if slot.vibrato_en then
      let range : Int := (((slot.f_num >>> 7) &&& 7 : Nat) : Int)
      let vibpos := chip.vibrato_pos
      let range := if vibpos &&& 3 == 0 then (0 : Int)
                   else if vibpos &&& 1 != 0 then range >>> 1
                   else range
      let range := range >>> (if slot.vibrato_deep then 0 else 1)
      let range := if vibpos &&& 4 != 0 then -range else range
      f_num + range
    else f_num
  -- f_num is a 64-bit unsigned local: a negative vibrato excursion wraps
  let f_num : Nat := (f_num % (U64 : Int)).toNat
  let basefreq := ((f_num <<< slot.block) % U64) >>> 1
  let phase := slot.sIn.phase_acc >>> 9
  let phase_acc := if slot.sIn.phase_reset then 0 else slot.sIn.phase_acc
  let phase_acc := (phase_acc + (((basefreq * mt.getD slot.mult 0) % U64) >>> 1)) % U64
  let phase_acc := phase_acc &&& ((1 <<< 19) - 1)
  /- Noise mode (rhythm) sounds -/
  let noise := chip.lfsr
  let (phase_out, chip) :=
    if slot.slot_idx == 3 && slot.rhy_noise != 0 then
      let prev_slot := getSlot ch 2
      let bit2 := (phase >>> 2) &&& 1
      let bit3 := (phase >>> 3) &&& 1
      let bit7 := (phase >>> 7) &&& 1
      let bit8 := (phase >>> 8) &&& 1
      let tc3 := (prev_slot.sIn.phase_out >>> 3) &&& 1
      let tc5 := (prev_slot.sIn.phase_out >>> 5) &&& 1
      let chip := {chip with rm_hh_bit2 := bit2, rm_hh_bit3 := bit3,
                             rm_hh_bit7 := bit7, rm_hh_bit8 := bit8,
                             rm_tc_bit3 := tc3, rm_tc_bit5 := tc5}
      let rm_xor := (bit2 ^^^ bit7) ||| (bit3 ^^^ tc5) ||| (tc3 ^^^ tc5)
      let po :=
        if slot.rhy_noise == 1 then
          (bit8 <<< 9) ||| ((bit8 ^^^ (noise &&& 1)) <<< 8)
        else if slot.rhy_noise == 2 then
          (rm_xor <<< 9) ||| (if (rm_xor ^^^ (noise &&& 1)) != 0 then 0xd0 else 0x34)
        else if slot.rhy_noise == 3 then
          (rm_xor <<< 9) ||| 0x80
        else phase
      (po, chip)
    else (phase, chip)
  let chip := {chip with lfsr := lfsr_update noise}
  ({slot with sIn := {slot.sIn with phase_acc := phase_acc, phase_out := phase_out}}, chip)

/-- The waveform output value computed by ESFM_slot_generate for slot si of
the channel: wavegen((uint10)(phase & 0x3ff), eg_output) with the optional
modulation input added to the phase. -/
def slot_generate_output (ch : Channel) (si : Nat) : Int :=
  let slot := getSlot ch si
  let phase : Int := slot.sIn.phase_out
  let phase :=
    if slot.mod_in_level != 0 then
      phase + ((readMod ch slot.sIn.mod_input) >>> (7 - slot.mod_in_level))
    else phase
  -- (uint10)(phase & 0x3ff): the low ten bits of the signed phase
  ((envelope_sin slot.waveform ((phase % (1024 : Int)).toNat) slot.sIn.eg_output : Nat) : Int)

/-- ESFM_slot_generate (esfm.c).  Stores the waveform output into the slot
and, when output_level is nonzero, accumulates into the channel outputs. -/
def ESFM_slot_generate (ch : Channel) (si : Nat) : Channel :=
  let slot := getSlot ch si
  let slot := {slot with sIn := {slot.sIn with output := slot_generate_output ch si}}
  let ch := setSlot ch si slot
  if slot.output_level != 0 then
    let output_value := slot.sIn.output >>> (7 - slot.output_level)
    {ch with output := (ch.output.1 + Int.land output_value slot.out_enable.1,
                        ch.output.2 + Int.land output_value slot.out_enable.2)}
  else ch

/-- ESFM_slot_calc_feedback (esfm.c). -/
def ESFM_slot_calc_feedback (slot : Slot) : Slot :=
  {slot with sIn := {slot.sIn with
    feedback_buf := (slot.sIn.output + slot.sIn.prev_output) >>> 2,
    prev_output := slot.sIn.output}}

/-- One iteration of the slot loop in ESFM_process_channel: envelope, phase
and output generation for slot si, with every partial update immediately
visible as in the C (the slot is stored back after each step). -/
def ESFM_slot_step (chip : Chip) (ch : Channel) (si : Nat) : Channel × Chip :=
  let ch := setSlot ch si (ESFM_envelope_calc chip ch (getSlot ch si))
  let pg := ESFM_phase_generate chip ch (getSlot ch si)
  let ch := setSlot ch si pg.1
  let chip := pg.2
  let ch := ESFM_slot_generate ch si
  (ch, chip)

/-- The body of ESFM_process_channel on the channel value: zero the channel
outputs, run the feedback calculation for slot 0, then the four slot
iterations, threading the chip through the phase generator. -/
def ESFM_channel_pipeline (chip : Chip) (ch : Channel) : Channel × Chip :=
  let ch := {ch with output := (0, 0)}
  let ch := setSlot ch 0 (ESFM_slot_calc_feedback (getSlot ch 0))
  let s0 := ESFM_slot_step chip ch 0
  let s1 := ESFM_slot_step s0.2 s0.1 1
  let s2 := ESFM_slot_step s1.2 s1.1 2
  let s3 := ESFM_slot_step s2.2 s2.1 3
  s3

/-- ESFM_process_channel (esfm.c). -/
def ESFM_process_channel (chip : Chip) (ci : Nat) : Chip :=
  let p := ESFM_channel_pipeline chip (getCh chip ci)
  setCh p.2 ci p.1

/-- ESFM_clip_sample (esfm.c). -/
def ESFM_clip_sample (sample : Int) : Int :=
  if sample > 32767 then 32767
  else if sample < -32768 then -32768
  else sample

/-- The while loop in ESFM_update_timers that finds the lowest set bit of
eg_timer, written with explicit fuel (36 suffices for the 36-bit timer). -/
def egShiftLoop (t : Nat) : Nat → Nat → Nat
  | 0, shift => shift
  | fuel + 1, shift =>
    if shift < 36 && ((t >>> shift) &&& 1) == 0 then egShiftLoop t fuel (shift + 1)
    else shift

/-- ESFM_update_timers (esfm.c). -/
def ESFM_update_timers (chip : Chip) : Chip :=
  /- Tremolo -/
  let chip :=
    if chip.global_timer &&& 0x3f == 0x3f then
      let pos := (chip.tremolo_pos + 1) % 210
      {chip with tremolo_pos := pos,
                 tremolo := if pos < 105 then pos else 210 - pos}
    else chip
  /- Vibrato -/
  let chip :=
    if chip.global_timer &&& 0x3ff == 0x3ff then
      {chip with vibrato_pos := (chip.vibrato_pos + 1) &&& 0x07}
    else chip
  let chip := {chip with global_timer := (chip.global_timer + 1) &&& 0x3ff}
  /- Envelope generator dither clocks -/
  let eg_clocks :=
    if chip.eg_timer != 0 then
      let shift := egShiftLoop chip.eg_timer 36 0
      if shift ≤ 12 then shift + 1 else 0
    else 0
  let chip := {chip with eg_clocks := eg_clocks}
  let chip :=
    if chip.eg_tick || chip.eg_timer_overflow then
      if chip.eg_timer == (1 <<< 36) - 1 then
        {chip with eg_timer := 0, eg_timer_overflow := true}
      else
        {chip with eg_timer := chip.eg_timer + 1, eg_timer_overflow := false}
    else chip
  {chip with eg_tick := !chip.eg_tick}

/-- The body of the channel loop in ESFM_generate: process channel ci and
add its two outputs into the chip's accumulators. -/
def ESFM_accum_channel (c : Chip) (ci : Nat) : Chip :=
  let c := ESFM_process_channel c ci
  {c with output_accm := (c.output_accm.1 + (getCh c ci).output.1,
                          c.output_accm.2 + (getCh c ci).output.2)}

/-- ESFM_generate (esfm.c).  Returns the updated chip and the two samples
written to buf. -/
def ESFM_generate (chip : Chip) : Chip × (Int × Int) :=
  let chip := {chip with output_accm := (0, 0)}
  let chip := (List.range 18).foldl ESFM_accum_channel chip
  let buf0 := ESFM_clip_sample chip.output_accm.1
  let buf1 := ESFM_clip_sample chip.output_accm.2
  let chip := ESFM_update_timers chip
  (chip, (buf0, buf1))

/-- n calls to ESFM_generate, keeping the chip state. -/
def genIter : Nat → Chip → Chip
  | 0, c => c
  | n + 1, c => genIter n (ESFM_generate c).1

/-- ESFM_envelope_update_ksl (esfm_registers.c).  The difference is computed
in signed arithmetic but stored into an unsigned 64-bit local, so a negative
value wraps modulo 2^64 and the subsequent sign test can never fire. -/
def ESFM_envelope_update_ksl (slot : Slot) : Slot :=
  let ksl : Nat :=
    ((((kslrom.getD (slot.f_num >>> 6) 0) <<< 2)
        - ((8 - (slot.block : Int)) <<< 5)) % (U64 : Int)).toNat
  let ksl := if ksl < 0 then 0 else ksl
  {slot with sIn := {slot.sIn with eg_ksl_offset := ksl}}

/-- ESFM_slot_readback (esfm_registers.c).  Returns the data byte and the
slot: the register-index-1 case recomputes the slot's KSL offset as a side
effect, every other case returns the slot unchanged. -/
def ESFM_slot_readback (slot : Slot) (register_idx : Nat) : Nat × Slot :=
  let r := register_idx &&& 0x07
  if r == 0 then
    (((if slot.tremolo_en then 1 else 0) <<< 7) |||
     ((if slot.vibrato_en then 1 else 0) <<< 6) |||
     ((if slot.env_sustaining then 1 else 0) <<< 5) |||
     ((if slot.vibrato_en then 1 else 0) <<< 4) |||
     (slot.mult &&& 0x0f), slot)
  else if r == 1 then
    ((slot.ksl <<< 6) ||| (slot.t_level &&& 0x3f), ESFM_envelope_update_ksl slot)
  else if r == 2 then
    ((slot.attack_rate <<< 4) ||| (slot.decay_rate &&& 0x0f), slot)
  else if r == 3 then
    ((slot.sustain_lvl <<< 4) ||| (slot.release_rate &&& 0x0f), slot)
  else if r == 4 then
    (slot.f_num &&& 0xff, slot)
  else if r == 5 then
    ((slot.env_delay <<< 5) ||| ((slot.block &&& 0x07) <<< 2) ||| ((slot.f_num >>> 8) &&& 0x03), slot)
  else if r == 6 then
    (((if slot.tremolo_deep then 1 else 0) <<< 7) |||
     ((if slot.vibrato_deep then 1 else 0) <<< 6) |||
     ((if slot.out_enable.1 != 0 then 1 else 0) <<< 5) |||
     ((if slot.out_enable.2 != 0 then 1 else 0) <<< 4) |||
     ((slot.mod_in_level &&& 0x07) <<< 1), slot)
  else
    ((slot.output_level <<< 5) ||| ((slot.rhy_noise &&& 0x03) <<< 3) ||| (slot.waveform &&& 0x07), slot)

/-- ESFM_slot_write (esfm_registers.c). -/
def ESFM_slot_write (slot : Slot) (register_idx : Nat) (data : Nat) : Slot :=
  let r := register_idx &&& 0x07
  if r == 0 then
    {slot with tremolo_en := data &&& 0x80 != 0, vibrato_en := data &&& 0x40 != 0,
               env_sustaining := data &&& 0x20 != 0, ksr := data &&& 0x10 != 0,
               mult := data &&& 0x0f}
  else if r == 1 then
    {slot with ksl := data >>> 6, t_level := data &&& 0x3f}
  else if r == 2 then
    {slot with attack_rate := data >>> 4, decay_rate := data &&& 0x0f}
  else if r == 3 then
    {slot with sustain_lvl := data >>> 4, release_rate := data &&& 0x0f}
  else if r == 4 then
    {slot with f_num := (slot.f_num &&& 0x300) ||| data}
  else if r == 5 then
    {slot with env_delay := data >>> 5, block := (data >>> 2) &&& 0x07,
               f_num := (slot.f_num &&& 0xff) ||| ((data &&& 0x03) <<< 8)}
  else if r == 6 then
    {slot with tremolo_deep := data &&& 0x80 != 0, vibrato_deep := data &&& 0x40 != 0,
               out_enable := ((if data &&& 0x20 != 0 then (-1 : Int) else 0),
                              (if data &&& 0x10 != 0 then (-1 : Int) else 0)),
               mod_in_level := (data >>> 1) &&& 0x07}
  else
    {slot with output_level := data >>> 5, rhy_noise := (data >>> 3) &&& 0x03,
               waveform := data &&& 0x07}

def KEY_ON_REGS_START : Nat := 18 * 4 * 8

/-- ESFM_write_reg_native (esfm_registers.c). -/
def ESFM_write_reg_native (chip : Chip) (address : Nat) (data : Nat) : Chip :=
  let address := address &&& 0x7ff
  if address < KEY_ON_REGS_START then
    /- Slot register write -/
    let channel_idx := address >>> 5
    let slot_idx := (address >>> 3) &&& 0x03
    let register_idx := address &&& 0x07
    setCh chip channel_idx (setSlot (getCh chip channel_idx) slot_idx
      (ESFM_slot_write (getSlot (getCh chip channel_idx) slot_idx) register_idx data))
  else if address < KEY_ON_REGS_START + 16 then
    /- Key-on registers -/
    let channel_idx := address - KEY_ON_REGS_START
    setCh chip channel_idx
      {getCh chip channel_idx with
        key_on := data &&& 0x01 != 0,
        emu_mode_4op_enable := data &&& 0x02 != 0}
  else if address < KEY_ON_REGS_START + 20 then
    /- Key-on channels 17 and 18 (each half); note that the C expression
       16 + address & 0x01 parses as (16 + address) & 0x01 -/
    let channel_idx := (16 + address) &&& 0x01
    let second_half := address &&& 0x03
    let ch := getCh chip channel_idx
    if second_half != 0 then
      setCh chip channel_idx
        {ch with key_on_2 := data &&& 0x01 != 0,
                 emu_mode_4op_enable_2 := data &&& 0x02 != 0}
    else
      setCh chip channel_idx
        {ch with key_on := data &&& 0x01 != 0,
                 emu_mode_4op_enable := data &&& 0x02 != 0}
  else
    let m := address &&& 0x5ff
    if m == 0x402 then {chip with timers := (data, chip.timers.2)}
    else if m == 0x403 then {chip with timers := (chip.timers.1, data)}
    else if m == 0x404 then
      let chip :=
        if data &&& 0x80 != 0 then
          {chip with timer_overflow := (false, false), irq_bit := false}
        else chip
      {chip with timer_enable := (data &&& 0x01 != 0, data &&& 0x02 != 0),
                 timer_mask := (data &&& 0x20 != 0, data &&& 0x40 != 0)}
    else if m == 0x408 then {chip with keyscale_mode := data &&& 0x40 != 0}
    else if m == 0x501 then
      {chip with test_bit_distort := data &&& 0x02 != 0,
                 test_bit_attenuate := data &&& 0x10 != 0,
                 test_bit_mute := data &&& 0x40 != 0}
    else chip

/-- ESFM_readback_reg_native (esfm_registers.c).  Returns the data byte and
the (possibly mutated, through the slot-readback path) chip. -/
def ESFM_readback_reg_native (chip : Chip) (address : Nat) : Nat × Chip :=
  let address := address &&& 0x7ff
  if address < KEY_ON_REGS_START then
    /- Slot register read -/
    let channel_idx := address >>> 5
    let slot_idx := (address >>> 3) &&& 0x03
    let register_idx := address &&& 0x07
    let rb := ESFM_slot_readback (getSlot (getCh chip channel_idx) slot_idx) register_idx
    (rb.1, setCh chip channel_idx (setSlot (getCh chip channel_idx) slot_idx rb.2))
  else if address < KEY_ON_REGS_START + 16 then
    /- Key-on registers -/
    let ch := getCh chip (address - KEY_ON_REGS_START)
    ((if ch.key_on then 1 else 0) ||| ((if ch.emu_mode_4op_enable then 1 else 0) <<< 1), chip)
  else if address < KEY_ON_REGS_START + 20 then
    /- Key-on channels 17 and 18 (each half); the C expression
       16 + address & 0x03 parses as (16 + address) & 0x03 -/
    let channel_idx := (16 + address) &&& 0x03
    let second_half := address &&& 0x01
    let ch := getCh chip channel_idx
    if second_half != 0 then
      ((if ch.key_on_2 then 1 else 0) ||| ((if ch.emu_mode_4op_enable_2 then 1 else 0) <<< 1), chip)
    else
      ((if ch.key_on then 1 else 0) ||| ((if ch.emu_mode_4op_enable then 1 else 0) <<< 1), chip)
  else
    let m := address &&& 0x5ff
    if m == 0x402 then (chip.timers.1, chip)
    else if m == 0x403 then (chip.timers.2, chip)
    else if m == 0x404 then
      ((if chip.timer_enable.1 then 1 else 0) |||
       ((if chip.timer_enable.2 then 1 else 0) <<< 1) |||
       ((if chip.timer_mask.1 then 1 else 0) <<< 5) |||
       ((if chip.timer_mask.2 then 1 else 0) <<< 6), chip)
    else if m == 0x408 then
      (((if chip.keyscale_mode then 1 else 0) <<< 6), chip)
    else if m == 0x501 then
      (((if chip.test_bit_distort then 1 else 0) <<< 1) |||
       ((if chip.test_bit_attenuate then 1 else 0) <<< 4) |||
       ((if chip.test_bit_mute then 1 else 0) <<< 6), chip)
    else (0, chip)

/-- ESFM_write_reg_emu (esfm_registers.c).  The local reg has the bool
typedef in C, which is uint_fast8_t, so it keeps the whole low byte. -/
def ESFM_write_reg_emu (chip : Chip) (address : Nat) (data : Nat) : Chip :=
  let high := address &&& 0x100 != 0
  let reg := address &&& 0xff
  if reg &&& 0xf0 == 0 then
    if high then
      if reg &&& 0x0f == 0x04 then
        /- set 4-op channel bits: no state change in this source -/
        chip
      else if reg &&& 0x0f == 0x05 then
        {chip with emu_newmode := data &&& 0x01 != 0,
                   native_mode := data &&& 0x80 != 0}
      else chip
    else
      if reg &&& 0x0f == 0x08 then
        {chip with keyscale_mode := data &&& 0x40 != 0}
      else chip
  else chip

/-- ESFM_write_reg (esfm_registers.c). -/
def ESFM_write_reg (chip : Chip) (address : Nat) (data : Nat) : Chip :=
  if chip.native_mode then ESFM_write_reg_native chip address data
  else ESFM_write_reg_emu chip address data

/-- ESFM_readback_reg (esfm_registers.c); the emu-mode readback is commented
out in the source and 0 is returned with no state change. -/
def ESFM_readback_reg (chip : Chip) (address : Nat) : Nat × Chip :=
  if chip.native_mode then ESFM_readback_reg_native chip address
  else (0, chip)

/-- The per-slot state established by ESFM_init: memset to zero, then
eg_position = eg_output = 0x1ff, eg_state = EG_RELEASE, the mod_input and
key_on pointers, and out_enable = ~0. -/
def init_slot (channel_idx : Nat) (slot_idx : Nat) : Slot :=
  { slot_idx := slot_idx
    out_enable := ((-1 : Int), (-1 : Int))
    f_num := 0, block := 0, output_level := 0, mod_in_level := 0, t_level := 0
    mult := 0, waveform := 0, rhy_noise := 0, attack_rate := 0, decay_rate := 0
    sustain_lvl := 0, release_rate := 0, tremolo_en := false, tremolo_deep := false
    vibrato_en := false, vibrato_deep := false, env_sustaining := false, ksr := false
    ksl := 0, env_delay := 0
    sIn :=
      { eg_position := 0x1ff, eg_ksl_offset := 0, eg_output := 0x1ff, keyscale := 0
        output := 0, prev_output := 0, feedback_buf := 0
        mod_input := if slot_idx = 0 then ModPtr.fbOf 0 else ModPtr.outOf (slot_idx - 1)
        phase_acc := 0, phase_out := 0, phase_reset := false
        key_on := if 15 < channel_idx ∧ slot_idx &&& 0x02 ≠ 0 then KeyPtr.keyOn2 else KeyPtr.keyOn
        eg_state := 3, eg_delay_run := false, eg_delay_counter := 0 } }

/-- ESFM_init (esfm_registers.c): zeroed chip with the slot metadata above
and lfsr = 1. -/
def ESFM_init : Chip :=
  { channels := fun ci =>
      { slots := fun si => init_slot ci.val si.val
        output := (0, 0), key_on := false, emu_mode_4op_enable := false
        key_on_2 := false, emu_mode_4op_enable_2 := false }
    output_accm := (0, 0), addr_latch := 0, emu_newmode := false, native_mode := false
    keyscale_mode := false, eg_timer := 0, global_timer := 0, eg_clocks := 0
    eg_tick := false, eg_timer_overflow := false, tremolo := 0, tremolo_pos := 0
    vibrato_pos := 0, lfsr := 1
    rm_hh_bit2 := 0, rm_hh_bit3 := 0, rm_hh_bit7 := 0, rm_hh_bit8 := 0
    rm_tc_bit3 := 0, rm_tc_bit5 := 0
    timers := (0, 0), timer_enable := (false, false), timer_mask := (false, false)
    timer_overflow := (false, false), irq_bit := false
    test_bit_distort := false, test_bit_attenuate := false, test_bit_mute := false }

/-- The fields of the chip that ESFM_update_timers reads or writes.  The
channel-processing part of ESFM_generate touches none of them, so the timer
side of a full tick factors through this projection. -/
structure TimerState where
  global_timer : Nat
  tremolo : Nat
  tremolo_pos : Nat
  vibrato_pos : Nat
  eg_timer : Nat
  eg_clocks : Nat
  eg_tick : Bool
  eg_timer_overflow : Bool
deriving DecidableEq

/-- Projection of the chip onto its timer fields. -/
def tProj (c : Chip) : TimerState :=
  { global_timer := c.global_timer, tremolo := c.tremolo, tremolo_pos := c.tremolo_pos
    vibrato_pos := c.vibrato_pos, eg_timer := c.eg_timer, eg_clocks := c.eg_clocks
    eg_tick := c.eg_tick, eg_timer_overflow := c.eg_timer_overflow }

/-- ESFM_update_timers restricted to the timer fields (same code as
ESFM_update_timers, on the projected state). -/
def ESFM_update_timers_t (t : TimerState) : TimerState :=
  let t :=
    if t.global_timer &&& 0x3f == 0x3f then
      let pos := (t.tremolo_pos + 1) % 210
      {t with tremolo_pos := pos,
              tremolo := if pos < 105 then pos else 210 - pos}
    else t
  let t :=
    if t.global_timer &&& 0x3ff == 0x3ff then
      {t with vibrato_pos := (t.vibrato_pos + 1) &&& 0x07}
    else t
  let t := {t with global_timer := (t.global_timer + 1) &&& 0x3ff}
  let eg_clocks :=
    if t.eg_timer != 0 then
      let shift := egShiftLoop t.eg_timer 36 0
      if shift ≤ 12 then shift + 1 else 0
    else 0
  let t := {t with eg_clocks := eg_clocks}
  let t :=
    if t.eg_tick || t.eg_timer_overflow then
      if t.eg_timer == (1 <<< 36) - 1 then
        {t with eg_timer := 0, eg_timer_overflow := true}
      else
        {t with eg_timer := t.eg_timer + 1, eg_timer_overflow := false}
    else t
  {t with eg_tick := !t.eg_tick}

/-- n steps of the projected timer update.  The intermediate state is
destructured at every step so that kernel evaluation of a long run proceeds
iteratively. -/
def tIter : Nat → TimerState → TimerState
  | 0, t => t
  | n + 1, t =>
    match ESFM_update_timers_t t with
    | ⟨a, b, c, d, e, f, g, h⟩ => tIter n ⟨a, b, c, d, e, f, g, h⟩

/-- The componentwise sum of the 18 channel outputs of a chip. -/
def channel_output_sum (c : Chip) : Int × Int :=
  (((List.range 18).map (fun ci => (getCh c ci).output.1)).sum,
   ((List.range 18).map (fun ci => (getCh c ci).output.2)).sum)

/-- A chip in native mode with otherwise freshly initialized state (reached
from ESFM_init by the emu-mode write of 0x80 to register 0x105). -/
def nativeInit : Chip := {ESFM_init with native_mode := true}

/-- Test fixture for the delayed re-attack gate: a slot with a one-tick
envelope delay, mid-countdown (eg_delay_run set, counter 5), in RELEASE. -/
def c3_slot : Slot :=
  {(init_slot 0 0) with
    env_delay := 1,
    sIn := {(init_slot 0 0).sIn with eg_delay_run := true, eg_delay_counter := 5}}

/-- Test fixture: the slot's channel with key_on asserted. -/
def c3_channel : Channel := {(getCh ESFM_init 0) with key_on := true}

/-- Test fixture: chip whose global_timer has bit 1 set while eg_timer is 0,
separating the two candidate gates for the delay-counter decrement. -/
def c3_chip : Chip := {ESFM_init with global_timer := 2, eg_timer := 0}

/-- Modelled from the spec: the KSL offset recompute formula as the spec
words it, max(0, (kslrom[f_num >> 6] << 2) - ((8 - block) << 5)); stated
here only for comparison against ESFM_envelope_update_ksl. -/
def spec_ksl_offset (f_num : Nat) (block : Nat) : Int :=
  max 0 (((kslrom.getD (f_num >>> 6) 0) <<< 2) - ((8 - (block : Int)) <<< 5))

/-- The native-mode register decoder's recognized address set, read off the
branches of ESFM_write_reg_native: everything below the key-on block's end,
plus the five switch cases under the 0x5ff mask. -/
def native_recognized (address : Nat) : Bool :=
  let a := address &&& 0x7ff
  decide (a < KEY_ON_REGS_START + 20) ||
  (a &&& 0x5ff == 0x402) || (a &&& 0x5ff == 0x403) || (a &&& 0x5ff == 0x404) ||
  (a &&& 0x5ff == 0x408) || (a &&& 0x5ff == 0x501)

/-- The emu-mode register decoder's recognized address set, read off the
switches of ESFM_write_reg_emu. -/
def emu_recognized (address : Nat) : Bool :=
  let high := address &&& 0x100 != 0
  let reg := address &&& 0xff
  (reg &&& 0xf0 == 0) &&
    (if high then (reg &&& 0x0f == 0x04) || (reg &&& 0x0f == 0x05)
     else (reg &&& 0x0f == 0x08))

/-- Recognized addresses for the decoder selected by the chip's mode. -/
def reg_recognized (native : Bool) (address : Nat) : Bool :=
  if native then native_recognized address else emu_recognized address

/-- All slots of the chip have output_level 0 (true after ESFM_init, and no
tick ever writes output_level). -/
def SilentLevels (c : Chip) : Prop :=
  ∀ ci si : Nat, (getSlot (getCh c ci) si).output_level = 0

/-- All slots of a single channel have output_level 0. -/
def SilentLevelsCh (ch : Channel) : Prop :=
  ∀ si : Nat, (getSlot ch si).output_level = 0

/-- The mod_input pointer slot si of a channel receives in ESFM_init:
slot 0 points at its own feedback_buf, slots 1..3 at the preceding slot's
output. -/
def canonicalMod (si : Nat) : ModPtr :=
  if si % 4 = 0 then ModPtr.fbOf 0 else ModPtr.outOf (si % 4 - 1)

/-- The key_on pointer slot si of channel ci receives in ESFM_init: the
channel's key_on_2 for slots 2-3 of channels 16 and 17, else key_on. -/
def canonicalKey (ci si : Nat) : KeyPtr :=
  if 15 < ci % 18 ∧ (si % 4) &&& 0x02 ≠ 0 then KeyPtr.keyOn2 else KeyPtr.keyOn

/-- Every slot's two internal pointers are the canonical ones ESFM_init
establishes. -/
def PtrInv (c : Chip) : Prop :=
  ∀ ci si : Nat,
    (getSlot (getCh c ci) si).sIn.mod_input = canonicalMod si ∧
    (getSlot (getCh c ci) si).sIn.key_on = canonicalKey ci si

/-- Chip states reachable from ESFM_init through ticks and register
writes. -/
inductive Reach : Chip → Prop
  | init : Reach ESFM_init
  | gen (c : Chip) : Reach c → Reach (ESFM_generate c).1
  | write (c : Chip) (a d : Nat) : Reach c → Reach (ESFM_write_reg c a d)

/- ------------------------------------------------------------------- -/
/- Accessor lemmas                                                      -/

theorem getSlot_setSlot (ch : Channel) (i j : Nat) (s : Slot) :
    getSlot (setSlot ch i s) j = if j % 4 = i % 4 then s else getSlot ch j := by
  by_cases h : j % 4 = i % 4 <;> simp [getSlot, setSlot, h]

theorem getSlot_congr (ch : Channel) {i j : Nat} (h : i % 4 = j % 4) :
    getSlot ch i = getSlot ch j := by
  simp only [getSlot]
  congr 1
  exact Fin.ext h

theorem setSlot_ext (ch : Channel) {i j : Nat} (h : i % 4 = j % 4) (s : Slot) :
    setSlot ch i s = setSlot ch j s := by
  simp only [setSlot, h]

theorem getCh_setCh (c : Chip) (i j : Nat) (ch : Channel) :
    getCh (setCh c i ch) j = if j % 18 = i % 18 then ch else getCh c j := by
  by_cases h : j % 18 = i % 18 <;> simp [getCh, setCh, h]

theorem getCh_congr (c : Chip) {i j : Nat} (h : i % 18 = j % 18) :
    getCh c i = getCh c j := by
  simp only [getCh]
  congr 1
  exact Fin.ext h

theorem setSlot_output (ch : Channel) (i : Nat) (s : Slot) :
    (setSlot ch i s).output = ch.output := rfl

theorem setSlot_key (ch : Channel) (i : Nat) (s : Slot) :
    (setSlot ch i s).key_on = ch.key_on ∧ (setSlot ch i s).key_on_2 = ch.key_on_2 :=
  ⟨rfl, rfl⟩

theorem tProj_setCh (c : Chip) (i : Nat) (ch : Channel) :
    tProj (setCh c i ch) = tProj c := rfl

theorem lfsr_setCh (c : Chip) (i : Nat) (ch : Channel) :
    (setCh c i ch).lfsr = c.lfsr := rfl

theorem accm_setCh (c : Chip) (i : Nat) (ch : Channel) :
    (setCh c i ch).output_accm = c.output_accm := rfl

/- ------------------------------------------------------------------- -/
/- The generator functions never write a slot's register fields or its   -/
/- two internal pointers                                                 -/

theorem env_calc_output_level (c : Chip) (ch : Channel) (s : Slot) :
    (ESFM_envelope_calc c ch s).output_level = s.output_level := rfl

theorem env_calc_mod_input (c : Chip) (ch : Channel) (s : Slot) :
    (ESFM_envelope_calc c ch s).sIn.mod_input = s.sIn.mod_input := rfl

theorem env_calc_key_ptr (c : Chip) (ch : Channel) (s : Slot) :
    (ESFM_envelope_calc c ch s).sIn.key_on = s.sIn.key_on := rfl

theorem phase_slot_output_level (c : Chip) (ch : Channel) (s : Slot) :
    ((ESFM_phase_generate c ch s).1).output_level = s.output_level := rfl

theorem phase_slot_mod_input (c : Chip) (ch : Channel) (s : Slot) :
    ((ESFM_phase_generate c ch s).1).sIn.mod_input = s.sIn.mod_input := rfl

theorem phase_slot_key_ptr (c : Chip) (ch : Channel) (s : Slot) :
    ((ESFM_phase_generate c ch s).1).sIn.key_on = s.sIn.key_on := rfl

theorem feedback_output_level (s : Slot) :
    (ESFM_slot_calc_feedback s).output_level = s.output_level := rfl

theorem feedback_mod_input (s : Slot) :
    (ESFM_slot_calc_feedback s).sIn.mod_input = s.sIn.mod_input := rfl

theorem feedback_key_ptr (s : Slot) :
    (ESFM_slot_calc_feedback s).sIn.key_on = s.sIn.key_on := rfl

/- The chip returned by ESFM_phase_generate differs from its argument only
in the lfsr and the rhythm latch bits -/

theorem phase_chip_tProj (c : Chip) (ch : Channel) (s : Slot) :
    tProj (ESFM_phase_generate c ch s).2 = tProj c := by
  cases h : (s.slot_idx == 3 && s.rhy_noise != 0) <;>
    simp [ESFM_phase_generate, h, tProj]

theorem phase_chip_lfsr (c : Chip) (ch : Channel) (s : Slot) :
    (ESFM_phase_generate c ch s).2.lfsr = lfsr_update c.lfsr := by
  cases h : (s.slot_idx == 3 && s.rhy_noise != 0) <;>
    simp [ESFM_phase_generate, h]

theorem phase_chip_channels (c : Chip) (ch : Channel) (s : Slot) :
    (ESFM_phase_generate c ch s).2.channels = c.channels := by
  cases h : (s.slot_idx == 3 && s.rhy_noise != 0) <;>
    simp [ESFM_phase_generate, h]

theorem phase_chip_accm (c : Chip) (ch : Channel) (s : Slot) :
    (ESFM_phase_generate c ch s).2.output_accm = c.output_accm := by
  cases h : (s.slot_idx == 3 && s.rhy_noise != 0) <;>
    simp [ESFM_phase_generate, h]

theorem getCh_eq_of_channels {c1 c2 : Chip} (h : c1.channels = c2.channels) (j : Nat) :
    getCh c1 j = getCh c2 j := by
  simp [getCh, h]

/- ESFM_slot_generate: effect on the slot array and on the channel output -/

theorem slot_generate_slots (ch : Channel) (si sj : Nat) :
    getSlot (ESFM_slot_generate ch si) sj =
      if sj % 4 = si % 4 then
        {getSlot ch si with sIn :=
          {(getSlot ch si).sIn with output := slot_generate_output ch si}}
      else getSlot ch sj := by
  by_cases h : sj % 4 = si % 4 <;>
    (unfold ESFM_slot_generate; dsimp only; split <;> simp [getSlot, setSlot, h])

theorem slot_generate_keys (ch : Channel) (si : Nat) :
    (ESFM_slot_generate ch si).key_on = ch.key_on ∧
    (ESFM_slot_generate ch si).key_on_2 = ch.key_on_2 := by
  unfold ESFM_slot_generate
  dsimp only
  split <;> exact ⟨rfl, rfl⟩

theorem slot_generate_output_of_silent (ch : Channel) (si : Nat)
    (h : (getSlot ch si).output_level = 0) :
    (ESFM_slot_generate ch si).output = ch.output := by
  unfold ESFM_slot_generate
  dsimp only
  rw [if_neg]
  · rfl
  · simp [h]

theorem getSlot_set_output (ch : Channel) (v : Int × Int) (j : Nat) :
    getSlot {ch with output := v} j = getSlot ch j := rfl

theorem setSlot_key_on (ch : Channel) (i : Nat) (s : Slot) :
    (setSlot ch i s).key_on = ch.key_on := rfl

theorem setSlot_key_on_2 (ch : Channel) (i : Nat) (s : Slot) :
    (setSlot ch i s).key_on_2 = ch.key_on_2 := rfl

theorem getCh_set_accm (c : Chip) (v : Int × Int) (j : Nat) :
    getCh {c with output_accm := v} j = getCh c j := rfl

/- ------------------------------------------------------------------- -/
/- ESFM_slot_step: one slot of the channel loop                         -/

theorem slot_step_tProj (chip : Chip) (ch : Channel) (si : Nat) :
    tProj (ESFM_slot_step chip ch si).2 = tProj chip := by
  simp [ESFM_slot_step, phase_chip_tProj]

theorem slot_step_lfsr (chip : Chip) (ch : Channel) (si : Nat) :
    (ESFM_slot_step chip ch si).2.lfsr = lfsr_update chip.lfsr := by
  simp [ESFM_slot_step, phase_chip_lfsr]

theorem slot_step_channels (chip : Chip) (ch : Channel) (si : Nat) :
    (ESFM_slot_step chip ch si).2.channels = chip.channels := by
  simp [ESFM_slot_step, phase_chip_channels]

theorem slot_step_accm (chip : Chip) (ch : Channel) (si : Nat) :
    (ESFM_slot_step chip ch si).2.output_accm = chip.output_accm := by
  simp [ESFM_slot_step, phase_chip_accm]

theorem slot_step_level (chip : Chip) (ch : Channel) (si sj : Nat) :
    (getSlot (ESFM_slot_step chip ch si).1 sj).output_level
      = (getSlot ch sj).output_level := by
  by_cases h : sj % 4 = si % 4
  · simp [ESFM_slot_step, slot_generate_slots, getSlot_setSlot, h,
          env_calc_output_level, phase_slot_output_level, getSlot_congr ch h]
  · simp [ESFM_slot_step, slot_generate_slots, getSlot_setSlot, h]

theorem slot_step_mod (chip : Chip) (ch : Channel) (si sj : Nat) :
    (getSlot (ESFM_slot_step chip ch si).1 sj).sIn.mod_input
      = (getSlot ch sj).sIn.mod_input := by
  by_cases h : sj % 4 = si % 4
  · simp [ESFM_slot_step, slot_generate_slots, getSlot_setSlot, h,
          env_calc_mod_input, phase_slot_mod_input, getSlot_congr ch h]
  · simp [ESFM_slot_step, slot_generate_slots, getSlot_setSlot, h]

theorem slot_step_keyptr (chip : Chip) (ch : Channel) (si sj : Nat) :
    (getSlot (ESFM_slot_step chip ch si).1 sj).sIn.key_on
      = (getSlot ch sj).sIn.key_on := by
  by_cases h : sj % 4 = si % 4
  · simp [ESFM_slot_step, slot_generate_slots, getSlot_setSlot, h,
          env_calc_key_ptr, phase_slot_key_ptr, getSlot_congr ch h]
  · simp [ESFM_slot_step, slot_generate_slots, getSlot_setSlot, h]

theorem slot_step_keys (chip : Chip) (ch : Channel) (si : Nat) :
    (ESFM_slot_step chip ch si).1.key_on = ch.key_on ∧
    (ESFM_slot_step chip ch si).1.key_on_2 = ch.key_on_2 := by
  simp [ESFM_slot_step, slot_generate_keys, setSlot_key_on, setSlot_key_on_2]

theorem slot_step_output_of_silent (chip : Chip) (ch : Channel) (si : Nat)
    (h : (getSlot ch si).output_level = 0) :
    (ESFM_slot_step chip ch si).1.output = ch.output := by
  simp [ESFM_slot_step, slot_generate_output_of_silent, setSlot_output,
        getSlot_setSlot, phase_slot_output_level, env_calc_output_level, h]

/-- Under all-zero output levels a slot step keeps both the channel output
and the all-zero levels. -/
theorem slot_step_silent (chip : Chip) (ch : Channel) (si : Nat)
    (hs : ∀ sj : Nat, (getSlot ch sj).output_level = 0) :
    (ESFM_slot_step chip ch si).1.output = ch.output ∧
    (∀ sj : Nat, (getSlot (ESFM_slot_step chip ch si).1 sj).output_level = 0) := by
  refine ⟨slot_step_output_of_silent chip ch si (hs si), fun sj => ?_⟩
  rw [slot_step_level]
  exact hs sj

/- The feedback stage at the top of the channel loop -/

theorem feedback_stage_level (ch : Channel) (sj : Nat) :
    (getSlot (setSlot ch 0 (ESFM_slot_calc_feedback (getSlot ch 0))) sj).output_level
      = (getSlot ch sj).output_level := by
  by_cases h : sj % 4 = 0 % 4
  · simp [getSlot_setSlot, h, feedback_output_level, getSlot_congr ch h]
  · simp [getSlot_setSlot, h]

theorem feedback_stage_mod (ch : Channel) (sj : Nat) :
    (getSlot (setSlot ch 0 (ESFM_slot_calc_feedback (getSlot ch 0))) sj).sIn.mod_input
      = (getSlot ch sj).sIn.mod_input := by
  by_cases h : sj % 4 = 0 % 4
  · simp [getSlot_setSlot, h, feedback_mod_input, getSlot_congr ch h]
  · simp [getSlot_setSlot, h]

theorem feedback_stage_keyptr (ch : Channel) (sj : Nat) :
    (getSlot (setSlot ch 0 (ESFM_slot_calc_feedback (getSlot ch 0))) sj).sIn.key_on
      = (getSlot ch sj).sIn.key_on := by
  by_cases h : sj % 4 = 0 % 4
  · simp [getSlot_setSlot, h, feedback_key_ptr, getSlot_congr ch h]
  · simp [getSlot_setSlot, h]

/- ------------------------------------------------------------------- -/
/- ESFM_process_channel                                                 -/

theorem slot_step_getCh (chip : Chip) (ch : Channel) (si j : Nat) :
    getCh (ESFM_slot_step chip ch si).2 j = getCh chip j :=
  getCh_eq_of_channels (slot_step_channels chip ch si) j

/- The channel pipeline -/

theorem pipeline_level (chip : Chip) (ch : Channel) (sj : Nat) :
    (getSlot (ESFM_channel_pipeline chip ch).1 sj).output_level
      = (getSlot ch sj).output_level := by
  unfold ESFM_channel_pipeline
  dsimp only
  rw [slot_step_level, slot_step_level, slot_step_level, slot_step_level,
      feedback_stage_level, getSlot_set_output]

theorem pipeline_mod (chip : Chip) (ch : Channel) (sj : Nat) :
    (getSlot (ESFM_channel_pipeline chip ch).1 sj).sIn.mod_input
      = (getSlot ch sj).sIn.mod_input := by
  unfold ESFM_channel_pipeline
  dsimp only
  rw [slot_step_mod, slot_step_mod, slot_step_mod, slot_step_mod,
      feedback_stage_mod, getSlot_set_output]

theorem pipeline_keyptr (chip : Chip) (ch : Channel) (sj : Nat) :
    (getSlot (ESFM_channel_pipeline chip ch).1 sj).sIn.key_on
      = (getSlot ch sj).sIn.key_on := by
  unfold ESFM_channel_pipeline
  dsimp only
  rw [slot_step_keyptr, slot_step_keyptr, slot_step_keyptr, slot_step_keyptr,
      feedback_stage_keyptr, getSlot_set_output]

theorem pipeline_tProj (chip : Chip) (ch : Channel) :
    tProj (ESFM_channel_pipeline chip ch).2 = tProj chip := by
  unfold ESFM_channel_pipeline
  dsimp only
  rw [slot_step_tProj, slot_step_tProj, slot_step_tProj, slot_step_tProj]

theorem pipeline_lfsr (chip : Chip) (ch : Channel) :
    (ESFM_channel_pipeline chip ch).2.lfsr
      = lfsr_update (lfsr_update (lfsr_update (lfsr_update chip.lfsr))) := by
  unfold ESFM_channel_pipeline
  dsimp only
  rw [slot_step_lfsr, slot_step_lfsr, slot_step_lfsr, slot_step_lfsr]

theorem pipeline_accm (chip : Chip) (ch : Channel) :
    (ESFM_channel_pipeline chip ch).2.output_accm = chip.output_accm := by
  unfold ESFM_channel_pipeline
  dsimp only
  rw [slot_step_accm, slot_step_accm, slot_step_accm, slot_step_accm]

theorem pipeline_getCh (chip : Chip) (ch : Channel) (j : Nat) :
    getCh (ESFM_channel_pipeline chip ch).2 j = getCh chip j := by
  unfold ESFM_channel_pipeline
  dsimp only
  rw [slot_step_getCh, slot_step_getCh, slot_step_getCh, slot_step_getCh]

/-- Under all-zero output levels the pipeline returns the channel with both
outputs zero: the loop starts from (0, 0) and every slot's accumulation is
skipped. -/
theorem pipeline_output_of_silent (chip : Chip) (ch : Channel)
    (hs : ∀ sj : Nat, (getSlot ch sj).output_level = 0) :
    (ESFM_channel_pipeline chip ch).1.output = (0, 0) := by
  unfold ESFM_channel_pipeline
  dsimp only
  have h0 : ∀ sj : Nat,
      (getSlot (setSlot {ch with output := ((0 : Int), (0 : Int))} 0
        (ESFM_slot_calc_feedback
          (getSlot {ch with output := ((0 : Int), (0 : Int))} 0))) sj).output_level
        = 0 := by
    intro sj
    rw [feedback_stage_level, getSlot_set_output]
    exact hs sj
  obtain ⟨o1, l1⟩ := slot_step_silent chip _ 0 h0
  obtain ⟨o2, l2⟩ := slot_step_silent _ _ 1 l1
  obtain ⟨o3, l3⟩ := slot_step_silent _ _ 2 l2
  obtain ⟨o4, _⟩ := slot_step_silent _ _ 3 l3
  rw [o4, o3, o2, o1, setSlot_output]

/- ESFM_process_channel -/

theorem process_channel_tProj (c : Chip) (ci : Nat) :
    tProj (ESFM_process_channel c ci) = tProj c := by
  unfold ESFM_process_channel
  dsimp only
  rw [tProj_setCh, pipeline_tProj]

theorem process_channel_lfsr (c : Chip) (ci : Nat) :
    (ESFM_process_channel c ci).lfsr
      = lfsr_update (lfsr_update (lfsr_update (lfsr_update c.lfsr))) := by
  unfold ESFM_process_channel
  dsimp only
  rw [lfsr_setCh, pipeline_lfsr]

theorem process_channel_accm (c : Chip) (ci : Nat) :
    (ESFM_process_channel c ci).output_accm = c.output_accm := by
  unfold ESFM_process_channel
  dsimp only
  rw [accm_setCh, pipeline_accm]

theorem process_channel_getCh_ne (c : Chip) (ci cj : Nat) (h : ¬ cj % 18 = ci % 18) :
    getCh (ESFM_process_channel c ci) cj = getCh c cj := by
  unfold ESFM_process_channel
  dsimp only
  rw [getCh_setCh, if_neg h, pipeline_getCh]

theorem process_channel_getCh_self (c : Chip) (ci : Nat) :
    getCh (ESFM_process_channel c ci) ci
      = (ESFM_channel_pipeline c (getCh c ci)).1 := by
  unfold ESFM_process_channel
  dsimp only
  rw [getCh_setCh, if_pos rfl]

theorem process_channel_level (c : Chip) (ci cj sj : Nat) :
    (getSlot (getCh (ESFM_process_channel c ci) cj) sj).output_level
      = (getSlot (getCh c cj) sj).output_level := by
  by_cases h : cj % 18 = ci % 18
  · rw [getCh_congr _ h, process_channel_getCh_self, pipeline_level,
        getCh_congr c h]
  · rw [process_channel_getCh_ne c ci cj h]

theorem process_channel_mod (c : Chip) (ci cj sj : Nat) :
    (getSlot (getCh (ESFM_process_channel c ci) cj) sj).sIn.mod_input
      = (getSlot (getCh c cj) sj).sIn.mod_input := by
  by_cases h : cj % 18 = ci % 18
  · rw [getCh_congr _ h, process_channel_getCh_self, pipeline_mod,
        getCh_congr c h]
  · rw [process_channel_getCh_ne c ci cj h]

theorem process_channel_keyptr (c : Chip) (ci cj sj : Nat) :
    (getSlot (getCh (ESFM_process_channel c ci) cj) sj).sIn.key_on
      = (getSlot (getCh c cj) sj).sIn.key_on := by
  by_cases h : cj % 18 = ci % 18
  · rw [getCh_congr _ h, process_channel_getCh_self, pipeline_keyptr,
        getCh_congr c h]
  · rw [process_channel_getCh_ne c ci cj h]

/-- Under all-zero output levels the processed channel's two outputs are
zero. -/
theorem process_channel_output_self (c : Chip) (ci : Nat)
    (hs : ∀ sj : Nat, (getSlot (getCh c ci) sj).output_level = 0) :
    (getCh (ESFM_process_channel c ci) ci).output = (0, 0) := by
  rw [process_channel_getCh_self]
  exact pipeline_output_of_silent c (getCh c ci) hs

/- ------------------------------------------------------------------- -/
/- ESFM_update_timers                                                   -/

theorem update_timers_channels (c : Chip) :
    (ESFM_update_timers c).channels = c.channels := by
  unfold ESFM_update_timers
  dsimp only
  repeat' split
  all_goals rfl

theorem update_timers_accm (c : Chip) :
    (ESFM_update_timers c).output_accm = c.output_accm := by
  unfold ESFM_update_timers
  dsimp only
  repeat' split
  all_goals rfl

theorem update_timers_lfsr (c : Chip) :
    (ESFM_update_timers c).lfsr = c.lfsr := by
  unfold ESFM_update_timers
  dsimp only
  repeat' split
  all_goals rfl

theorem tProj_update_timers (c : Chip) :
    tProj (ESFM_update_timers c) = ESFM_update_timers_t (tProj c) := by
  unfold ESFM_update_timers ESFM_update_timers_t
  by_cases h1 : (c.global_timer &&& 0x3f == 0x3f) = true <;>
    by_cases h2 : (c.global_timer &&& 0x3ff == 0x3ff) = true <;>
      by_cases h3 : (c.eg_tick || c.eg_timer_overflow) = true <;>
        by_cases h4 : c.eg_timer = 68719476735 <;>
          simp [h1, h2, h3, h4, tProj]

/- ------------------------------------------------------------------- -/
/- The channel loop of ESFM_generate                                    -/

theorem foldl_inv {α β : Type _} (P : α → Prop) (f : α → β → α)
    (hstep : ∀ a b, P a → P (f a b)) :
    ∀ (l : List β) (a : α), P a → P (l.foldl f a)
  | [], _, h => h
  | b :: t, a, h => foldl_inv P f hstep t (f a b) (hstep a b h)

theorem tProj_set_accm (c : Chip) (v : Int × Int) :
    tProj {c with output_accm := v} = tProj c := rfl

theorem accum_channel_tProj (c : Chip) (ci : Nat) :
    tProj (ESFM_accum_channel c ci) = tProj c := by
  unfold ESFM_accum_channel
  dsimp only
  rw [tProj_set_accm, process_channel_tProj]

theorem accum_channel_lfsr (c : Chip) (ci : Nat) :
    (ESFM_accum_channel c ci).lfsr
      = lfsr_update (lfsr_update (lfsr_update (lfsr_update c.lfsr))) := by
  unfold ESFM_accum_channel
  dsimp only
  exact process_channel_lfsr c ci

theorem accum_channel_level (c : Chip) (ci cj sj : Nat) :
    (getSlot (getCh (ESFM_accum_channel c ci) cj) sj).output_level
      = (getSlot (getCh c cj) sj).output_level := by
  unfold ESFM_accum_channel
  dsimp only
  rw [getCh_set_accm]
  exact process_channel_level c ci cj sj

theorem accum_channel_mod (c : Chip) (ci cj sj : Nat) :
    (getSlot (getCh (ESFM_accum_channel c ci) cj) sj).sIn.mod_input
      = (getSlot (getCh c cj) sj).sIn.mod_input := by
  unfold ESFM_accum_channel
  dsimp only
  rw [getCh_set_accm]
  exact process_channel_mod c ci cj sj

theorem accum_channel_keyptr (c : Chip) (ci cj sj : Nat) :
    (getSlot (getCh (ESFM_accum_channel c ci) cj) sj).sIn.key_on
      = (getSlot (getCh c cj) sj).sIn.key_on := by
  unfold ESFM_accum_channel
  dsimp only
  rw [getCh_set_accm]
  exact process_channel_keyptr c ci cj sj

theorem accum_channel_accm (c : Chip) (ci : Nat) :
    (ESFM_accum_channel c ci).output_accm
      = (c.output_accm.1 + (getCh (ESFM_process_channel c ci) ci).output.1,
         c.output_accm.2 + (getCh (ESFM_process_channel c ci) ci).output.2) := by
  unfold ESFM_accum_channel
  dsimp only
  rw [process_channel_accm]

/- ------------------------------------------------------------------- -/
/- Silence: ESFM_generate under all-zero output levels                  -/

theorem SilentLevels_accum (c : Chip) (ci : Nat) (h : SilentLevels c) :
    SilentLevels (ESFM_accum_channel c ci) := fun cj sj => by
  rw [accum_channel_level]
  exact h cj sj

theorem silent_fold (l : List Nat) (c : Chip)
    (h : SilentLevels c ∧ c.output_accm = (0, 0)) :
    SilentLevels (l.foldl ESFM_accum_channel c)
      ∧ (l.foldl ESFM_accum_channel c).output_accm = (0, 0) := by
  refine foldl_inv (fun a => SilentLevels a ∧ a.output_accm = (0, 0))
    ESFM_accum_channel ?_ l c h
  rintro a b ⟨hS, hA⟩
  refine ⟨SilentLevels_accum a b hS, ?_⟩
  rw [accum_channel_accm, process_channel_output_self a b (fun sj => hS b sj), hA]
  simp

theorem generate_silent (c : Chip) (h : SilentLevels c) :
    (ESFM_generate c).2 = (0, 0) ∧ SilentLevels (ESFM_generate c).1 := by
  unfold ESFM_generate
  dsimp only
  have h0 : SilentLevels {c with output_accm := ((0 : Int), (0 : Int))} ∧
      ({c with output_accm := ((0 : Int), (0 : Int))} : Chip).output_accm = (0, 0) :=
    ⟨fun ci si => h ci si, rfl⟩
  obtain ⟨hS, hA⟩ := silent_fold (List.range 18) _ h0
  constructor
  · rw [hA]
    rfl
  · intro ci si
    rw [getCh_eq_of_channels (update_timers_channels _) ci]
    exact hS ci si

theorem silent_init : SilentLevels ESFM_init := fun _ _ => rfl

theorem genIter_silent (n : Nat) (c : Chip) (h : SilentLevels c) :
    SilentLevels (genIter n c) := by
  induction n generalizing c with
  | zero => exact h
  | succ n ih => exact ih _ (generate_silent c h).2

/-- Claim C1: after ESFM_init and with no register writes, every call to
ESFM_generate writes the stereo sample (0, 0), for any number of preceding
calls. -/
theorem claim_C1 (n : Nat) :
    (ESFM_generate (genIter n ESFM_init)).2 = (0, 0) :=
  (generate_silent _ (genIter_silent n ESFM_init silent_init)).1

/- ------------------------------------------------------------------- -/
/- Clipping and the output accumulators                                 -/

theorem clip_bounds (s : Int) :
    -32768 ≤ ESFM_clip_sample s ∧ ESFM_clip_sample s ≤ 32767 := by
  unfold ESFM_clip_sample
  repeat' split
  all_goals omega

theorem clip_eq_clamp (s : Int) :
    ESFM_clip_sample s = max (-32768) (min 32767 s) := by
  unfold ESFM_clip_sample
  repeat' split
  all_goals omega

theorem generate_buf (c : Chip) :
    (ESFM_generate c).2
      = (ESFM_clip_sample ((ESFM_generate c).1.output_accm.1),
         ESFM_clip_sample ((ESFM_generate c).1.output_accm.2)) := by
  unfold ESFM_generate
  dsimp only
  rw [update_timers_accm]

theorem accum_channel_getCh_ne (c : Chip) (ci cj : Nat) (h : ¬ cj % 18 = ci % 18) :
    getCh (ESFM_accum_channel c ci) cj = getCh c cj := by
  unfold ESFM_accum_channel
  dsimp only
  rw [getCh_set_accm]
  exact process_channel_getCh_ne c ci cj h

theorem fold_getCh_ne :
    ∀ (l : List Nat) (i : Nat), (∀ j ∈ l, ¬ i % 18 = j % 18) → ∀ c : Chip,
      getCh (l.foldl ESFM_accum_channel c) i = getCh c i := by
  intro l
  induction l with
  | nil => intro i _ c; rfl
  | cons b t ih =>
    intro i h c
    have hb : ¬ i % 18 = b % 18 := h b (List.mem_cons_self b t)
    rw [List.foldl_cons, ih i (fun j hj => h j (List.mem_cons_of_mem b hj)),
        accum_channel_getCh_ne c b i hb]

theorem fold_accm_sum :
    ∀ (l : List Nat), l.Pairwise (fun a b => ¬ a % 18 = b % 18) →
      ∀ c : Chip,
        (l.foldl ESFM_accum_channel c).output_accm.1
            = c.output_accm.1
              + (l.map (fun ci => (getCh (l.foldl ESFM_accum_channel c) ci).output.1)).sum ∧
        (l.foldl ESFM_accum_channel c).output_accm.2
            = c.output_accm.2
              + (l.map (fun ci => (getCh (l.foldl ESFM_accum_channel c) ci).output.2)).sum := by
  intro l
  induction l with
  | nil => intro _ c; simp
  | cons b t ih =>
    intro hp c
    obtain ⟨hb, ht⟩ := List.pairwise_cons.mp hp
    obtain ⟨ih1, ih2⟩ := ih ht (ESFM_accum_channel c b)
    have hfix : getCh (t.foldl ESFM_accum_channel (ESFM_accum_channel c b)) b
        = getCh (ESFM_process_channel c b) b := by
      rw [fold_getCh_ne t b (fun j hj => hb j hj)]
      unfold ESFM_accum_channel
      dsimp only
      rw [getCh_set_accm]
    constructor
    · rw [List.foldl_cons, List.map_cons, List.sum_cons, ih1, hfix,
          accum_channel_accm]
      ring
    · rw [List.foldl_cons, List.map_cons, List.sum_cons, ih2, hfix,
          accum_channel_accm]
      ring

theorem range18_pairwise : (List.range 18).Pairwise (fun a b => ¬ a % 18 = b % 18) := by
  decide

theorem generate_accm_eq_sum (c : Chip) :
    (ESFM_generate c).1.output_accm = channel_output_sum (ESFM_generate c).1 := by
  have hgen1 : (ESFM_generate c).1
      = ESFM_update_timers ((List.range 18).foldl ESFM_accum_channel
          {c with output_accm := ((0 : Int), (0 : Int))}) := rfl
  obtain ⟨h1, h2⟩ := fold_accm_sum (List.range 18) range18_pairwise
    {c with output_accm := ((0 : Int), (0 : Int))}
  have hchan2 : ∀ ci : Nat,
      getCh (ESFM_update_timers ((List.range 18).foldl ESFM_accum_channel
          {c with output_accm := ((0 : Int), (0 : Int))})) ci
        = getCh ((List.range 18).foldl ESFM_accum_channel
            {c with output_accm := ((0 : Int), (0 : Int))}) ci :=
    fun ci => getCh_eq_of_channels (update_timers_channels _) ci
  rw [hgen1, update_timers_accm]
  unfold channel_output_sum
  simp only [hchan2]
  rw [Prod.ext_iff]
  refine ⟨?_, ?_⟩
  · dsimp only
    rw [h1]
    show (0 : Int) + _ = _
    rw [zero_add]
  · dsimp only
    rw [h2]
    show (0 : Int) + _ = _
    rw [zero_add]

/-- Claim C2: the two samples ESFM_generate writes always lie in the int16
range: the accumulated sum of the 18 channel outputs is passed through
ESFM_clip_sample, which saturates at 32767 and -32768 instead of
wrapping. -/
theorem claim_C2 :
    (∀ chip : Chip,
        (-32768 ≤ (ESFM_generate chip).2.1 ∧ (ESFM_generate chip).2.1 ≤ 32767) ∧
        (-32768 ≤ (ESFM_generate chip).2.2 ∧ (ESFM_generate chip).2.2 ≤ 32767) ∧
        (ESFM_generate chip).1.output_accm = channel_output_sum (ESFM_generate chip).1 ∧
        (ESFM_generate chip).2
          = (ESFM_clip_sample ((ESFM_generate chip).1.output_accm.1),
             ESFM_clip_sample ((ESFM_generate chip).1.output_accm.2))) ∧
    (∀ s : Int, ESFM_clip_sample s = max (-32768) (min 32767 s)) := by
  constructor
  · intro chip
    have hb := generate_buf chip
    refine ⟨?_, ?_, generate_accm_eq_sum chip, hb⟩
    · rw [hb]
      exact clip_bounds _
    · rw [hb]
      exact clip_bounds _
  · exact clip_eq_clamp

/- ------------------------------------------------------------------- -/
/- The LFSR                                                             -/

theorem lor_ne_zero_left {x y : Nat} (h : x ≠ 0) : x ||| y ≠ 0 := by
  intro hc
  apply h
  apply Nat.eq_of_testBit_eq
  intro i
  have ht : (x ||| y).testBit i = false := by rw [hc]; simp
  rw [Nat.testBit_or] at ht
  simp only [Bool.or_eq_false_iff] at ht
  simp [ht.1]

theorem lfsr_update_nonzero (l : Nat) (h0 : 0 < l) (h1 : l < 2 ^ 23) :
    lfsr_update l ≠ 0 ∧ lfsr_update l < 2 ^ 23 := by
  constructor
  · rcases Nat.lt_or_ge l 2 with hl | hl
    · have he : l = 1 := by omega
      subst he
      decide
    · unfold lfsr_update
      dsimp only
      apply lor_ne_zero_left
      rw [Nat.shiftRight_eq_div_pow]
      omega
  · unfold lfsr_update
    dsimp only
    apply Nat.or_lt_two_pow
    · rw [Nat.shiftRight_eq_div_pow]
      omega
    · have hb : ((l >>> 14) ^^^ l) &&& 0x01 ≤ 1 := Nat.and_le_right
      calc (((l >>> 14) ^^^ l) &&& 0x01) <<< 22
          = (((l >>> 14) ^^^ l) &&& 0x01) * 2 ^ 22 := Nat.shiftLeft_eq _ _
        _ ≤ 1 * 2 ^ 22 := Nat.mul_le_mul_right _ hb
        _ < 2 ^ 23 := by norm_num

theorem generate_lfsr_inv (c : Chip) (h : 0 < c.lfsr ∧ c.lfsr < 2 ^ 23) :
    0 < (ESFM_generate c).1.lfsr ∧ (ESFM_generate c).1.lfsr < 2 ^ 23 := by
  have hf : ∀ (l : List Nat) (a : Chip), 0 < a.lfsr ∧ a.lfsr < 2 ^ 23 →
      0 < (l.foldl ESFM_accum_channel a).lfsr
        ∧ (l.foldl ESFM_accum_channel a).lfsr < 2 ^ 23 := by
    intro l
    induction l with
    | nil => intro a ha; exact ha
    | cons b t ih =>
      intro a ha
      rw [List.foldl_cons]
      apply ih
      rw [accum_channel_lfsr]
      obtain ⟨h0, h1⟩ := ha
      have s1 := lfsr_update_nonzero a.lfsr h0 h1
      have s2 := lfsr_update_nonzero _ (Nat.pos_of_ne_zero s1.1) s1.2
      have s3 := lfsr_update_nonzero _ (Nat.pos_of_ne_zero s2.1) s2.2
      have s4 := lfsr_update_nonzero _ (Nat.pos_of_ne_zero s3.1) s3.2
      exact ⟨Nat.pos_of_ne_zero s4.1, s4.2⟩
  have hgen : (ESFM_generate c).1
      = ESFM_update_timers ((List.range 18).foldl ESFM_accum_channel
          {c with output_accm := ((0 : Int), (0 : Int))}) := rfl
  rw [hgen, update_timers_lfsr]
  exact hf (List.range 18) _ h

theorem genIter_lfsr (n : Nat) (c : Chip) (h : 0 < c.lfsr ∧ c.lfsr < 2 ^ 23) :
    0 < (genIter n c).lfsr ∧ (genIter n c).lfsr < 2 ^ 23 := by
  induction n generalizing c with
  | zero => exact h
  | succ n ih => exact ih _ (generate_lfsr_inv c h)

/-- Claim C8: ESFM_init sets the 23-bit LFSR to 1; after any number of
ticks the LFSR is nonzero, because the update
bit = ((lfsr >> 14) ^ lfsr) & 1; lfsr = (lfsr >> 1) | (bit << 22) sends
every nonzero 23-bit value to a nonzero 23-bit value. -/
theorem claim_C8 :
    ESFM_init.lfsr = 1 ∧
    (∀ n : Nat, (genIter n ESFM_init).lfsr ≠ 0) ∧
    (∀ l : Nat, 0 < l → l < 2 ^ 23 →
      lfsr_update l ≠ 0 ∧ lfsr_update l < 2 ^ 23) := by
  refine ⟨rfl, ?_, lfsr_update_nonzero⟩
  intro n
  exact Nat.pos_iff_ne_zero.mp (genIter_lfsr n ESFM_init ⟨by decide, by decide⟩).1

/-- Witness for claim C8 at the nonzero 23-bit value 5. -/
theorem claim_C8_witness : lfsr_update 5 ≠ 0 ∧ lfsr_update 5 < 2 ^ 23 :=
  claim_C8.2.2 5 (by decide) (by decide)

/- ------------------------------------------------------------------- -/
/- The timer LFO state                                                  -/

theorem and63 (x : Nat) : x &&& 63 = x % 64 :=
  Nat.and_pow_two_sub_one_eq_mod x 6

theorem and1023 (x : Nat) : x &&& 1023 = x % 1024 :=
  Nat.and_pow_two_sub_one_eq_mod x 10

theorem tIter_succ (n : Nat) (t : TimerState) :
    tIter (n + 1) t = tIter n (ESFM_update_timers_t t) := by
  cases h : ESFM_update_timers_t t
  simp [tIter, h]

theorem tIter_step_comm (n : Nat) (t : TimerState) :
    tIter n (ESFM_update_timers_t t) = ESFM_update_timers_t (tIter n t) := by
  induction n generalizing t with
  | zero => rfl
  | succ n ih => rw [tIter_succ, tIter_succ, ih]

theorem tIter_succ_out (n : Nat) (t : TimerState) :
    tIter (n + 1) t = ESFM_update_timers_t (tIter n t) := by
  rw [tIter_succ, tIter_step_comm]

theorem update_timers_t_fields (t : TimerState) :
    (ESFM_update_timers_t t).global_timer = (t.global_timer + 1) &&& 0x3ff ∧
    (ESFM_update_timers_t t).tremolo_pos
      = (if t.global_timer &&& 0x3f == 0x3f then (t.tremolo_pos + 1) % 210
         else t.tremolo_pos) ∧
    (ESFM_update_timers_t t).tremolo
      = (if t.global_timer &&& 0x3f == 0x3f then
           (if (t.tremolo_pos + 1) % 210 < 105 then (t.tremolo_pos + 1) % 210
            else 210 - (t.tremolo_pos + 1) % 210)
         else t.tremolo) := by
  unfold ESFM_update_timers_t
  by_cases h1 : (t.global_timer &&& 0x3f == 0x3f) = true <;>
    by_cases h2 : (t.global_timer &&& 0x3ff == 0x3ff) = true <;>
      by_cases h3 : (t.eg_tick || t.eg_timer_overflow) = true <;>
        by_cases h4 : t.eg_timer = 68719476735 <;>
          simp [h1, h2, h3, h4]

theorem timer_closed_form (n : Nat) :
    (tIter n (tProj ESFM_init)).global_timer = n % 1024 ∧
    (tIter n (tProj ESFM_init)).tremolo_pos = (n / 64) % 210 ∧
    (tIter n (tProj ESFM_init)).tremolo
      = (if n < 64 then 0
         else if (n / 64) % 210 < 105 then (n / 64) % 210
         else 210 - (n / 64) % 210) := by
  induction n with
  | zero => exact ⟨rfl, rfl, rfl⟩
  | succ n ih =>
    obtain ⟨hg, hp, ht⟩ := ih
    obtain ⟨fg, fp, ft⟩ := update_timers_t_fields (tIter n (tProj ESFM_init))
    rw [tIter_succ_out]
    have hcond : ((tIter n (tProj ESFM_init)).global_timer &&& 0x3f == 0x3f) = true
        ↔ n % 64 = 63 := by
      rw [hg]
      simp [and63]
      omega
    refine ⟨?_, ?_, ?_⟩
    · rw [fg, hg, and1023]
      omega
    · rw [fp]
      by_cases hc : n % 64 = 63
      · rw [if_pos (hcond.mpr hc), hp]
        omega
      · rw [if_neg (fun hx => hc (hcond.mp hx)), hp]
        omega
    · rw [ft]
      by_cases hc : n % 64 = 63
      · rw [if_pos (hcond.mpr hc), hp]
        have he : ((n / 64) % 210 + 1) % 210 = ((n + 1) / 64) % 210 := by omega
        rw [he]
        have hn : ¬ (n + 1 < 64) := by omega
        rw [if_neg hn]
      · rw [if_neg (fun hx => hc (hcond.mp hx)), ht]
        have he : (n + 1) / 64 = n / 64 := by omega
        rw [he]
        by_cases hz : n < 64
        · have : n + 1 < 64 ∨ n = 63 := by omega
          rcases this with h64 | h63
          · rw [if_pos hz, if_pos h64]
          · exact absurd (by omega : n % 64 = 63) hc
        · rw [if_neg hz, if_neg (by omega : ¬ (n + 1 < 64))]

theorem genIter_tremolo (n : Nat) :
    (genIter n ESFM_init).tremolo = (tIter n (tProj ESFM_init)).tremolo := by
  have hfold : ∀ (l : List Nat) (a : Chip),
      tProj (l.foldl ESFM_accum_channel a) = tProj a := by
    intro l
    induction l with
    | nil => intro a; rfl
    | cons b t ih => intro a; rw [List.foldl_cons, ih, accum_channel_tProj]
  have hgen : ∀ c : Chip, tProj (ESFM_generate c).1 = ESFM_update_timers_t (tProj c) := by
    intro c
    unfold ESFM_generate
    dsimp only
    rw [tProj_update_timers, hfold, tProj_set_accm]
  have hiter : ∀ (m : Nat) (c : Chip), tProj (genIter m c) = tIter m (tProj c) := by
    intro m
    induction m with
    | zero => intro c; rfl
    | succ m ih =>
      intro c
      have : genIter (m + 1) c = genIter m (ESFM_generate c).1 := rfl
      rw [this, ih, hgen, ← tIter_succ]
  exact congrArg TimerState.tremolo (hiter n ESFM_init)

theorem tProj_genIter (n : Nat) (c : Chip) :
    tProj (genIter n c) = tIter n (tProj c) := by
  induction n generalizing c with
  | zero => rfl
  | succ n ih =>
    have hfold : ∀ (l : List Nat) (a : Chip),
        tProj (l.foldl ESFM_accum_channel a) = tProj a := by
      intro l
      induction l with
      | nil => intro a; rfl
      | cons b t ih2 => intro a; rw [List.foldl_cons, ih2, accum_channel_tProj]
    have hgen : tProj (ESFM_generate c).1 = ESFM_update_timers_t (tProj c) := by
      unfold ESFM_generate
      dsimp only
      rw [tProj_update_timers, hfold, tProj_set_accm]
    have hstep : genIter (n + 1) c = genIter n (ESFM_generate c).1 := rfl
    rw [hstep, ih, hgen, ← tIter_succ]

/-- Claim C6 counterexample: 6720 ticks after ESFM_init (the first time
tremolo_pos reaches 105) the chip's tremolo output is 105, outside the
claimed range [0, 104]. -/
theorem claim_C6_counterexample : (genIter 6720 ESFM_init).tremolo = 105 := by
  rw [genIter_tremolo]
  obtain ⟨-, -, ht⟩ := timer_closed_form 6720
  rw [ht]
  norm_num

/-- Claim C6 (amended): after every tick the tremolo output lies in
[0, 105] (the triangular wave attains 105 at tremolo_pos = 105); the
global timer counts ticks modulo 1024, and tremolo_pos advances modulo 210
exactly on the ticks whose low six global-timer bits are all ones, i.e.
exactly once every 64 ticks. -/
theorem claim_C6_amended (n : Nat) :
    (genIter n ESFM_init).tremolo ≤ 105 ∧
    (genIter n ESFM_init).global_timer = n % 1024 ∧
    ((genIter n ESFM_init).global_timer &&& 0x3f = 0x3f ↔ n % 64 = 63) ∧
    (genIter (n + 1) ESFM_init).tremolo_pos
      = (if n % 64 = 63 then ((genIter n ESFM_init).tremolo_pos + 1) % 210
         else (genIter n ESFM_init).tremolo_pos) := by
  have hg : (genIter n ESFM_init).global_timer
      = (tIter n (tProj ESFM_init)).global_timer :=
    congrArg TimerState.global_timer (tProj_genIter n ESFM_init)
  have hpos : ∀ m : Nat, (genIter m ESFM_init).tremolo_pos
      = (tIter m (tProj ESFM_init)).tremolo_pos :=
    fun m => congrArg TimerState.tremolo_pos (tProj_genIter m ESFM_init)
  obtain ⟨cg, cp, ct⟩ := timer_closed_form n
  refine ⟨?_, ?_, ?_, ?_⟩
  · rw [genIter_tremolo, ct]
    have h210 : (n / 64) % 210 < 210 := Nat.mod_lt _ (by norm_num)
    split_ifs <;> omega
  · rw [hg, cg]
  · rw [hg, cg, and63]
    omega
  · obtain ⟨-, fp, -⟩ := update_timers_t_fields (tIter n (tProj ESFM_init))
    rw [hpos (n + 1), hpos n, tIter_succ_out, fp]
    have hcond : ((tIter n (tProj ESFM_init)).global_timer &&& 0x3f == 0x3f) = true
        ↔ n % 64 = 63 := by
      rw [cg]
      simp [and63]
      omega
    by_cases hc : n % 64 = 63
    · rw [if_pos (hcond.mpr hc), if_pos hc]
    · rw [if_neg (fun hx => hc (hcond.mp hx)), if_neg hc]

/- ------------------------------------------------------------------- -/
/- The internal pointers                                                -/

theorem slot_write_sIn (s : Slot) (r d : Nat) :
    (ESFM_slot_write s r d).sIn = s.sIn := by
  unfold ESFM_slot_write
  dsimp only
  repeat' split
  all_goals rfl

theorem canonicalKey_congr {ci k : Nat} (h : ci % 18 = k % 18) (si : Nat) :
    canonicalKey ci si = canonicalKey k si := by
  unfold canonicalKey
  rw [h]

theorem PtrInv_of_channels {c1 c2 : Chip} (h : c1.channels = c2.channels)
    (hp : PtrInv c2) : PtrInv c1 := fun ci si => by
  rw [getCh_eq_of_channels h]
  exact hp ci si

theorem PtrInv_setCh (c : Chip) (k : Nat) (ch : Channel) (h : PtrInv c)
    (hch : ∀ sj : Nat,
      (getSlot ch sj).sIn.mod_input = (getSlot (getCh c k) sj).sIn.mod_input ∧
      (getSlot ch sj).sIn.key_on = (getSlot (getCh c k) sj).sIn.key_on) :
    PtrInv (setCh c k ch) := by
  intro ci si
  rw [getCh_setCh]
  by_cases hc : ci % 18 = k % 18
  · rw [if_pos hc]
    constructor
    · rw [(hch si).1]
      exact (h k si).1
    · rw [(hch si).2, canonicalKey_congr hc si]
      exact (h k si).2
  · rw [if_neg hc]
    exact h ci si

theorem PtrInv_setSlot_write (c : Chip) (k m r d : Nat) (h : PtrInv c) :
    PtrInv (setCh c k (setSlot (getCh c k) m
      (ESFM_slot_write (getSlot (getCh c k) m) r d))) := by
  apply PtrInv_setCh c k _ h
  intro sj
  rw [getSlot_setSlot]
  by_cases hs : sj % 4 = m % 4
  · rw [if_pos hs, slot_write_sIn]
    constructor <;> rw [getSlot_congr _ hs]
  · rw [if_neg hs]
    exact ⟨rfl, rfl⟩

theorem write_native_ptrs (c : Chip) (a d : Nat) (h : PtrInv c) :
    PtrInv (ESFM_write_reg_native c a d) := by
  unfold ESFM_write_reg_native
  dsimp only
  repeat' split
  all_goals
    first
      | exact PtrInv_setSlot_write c _ _ _ d h
      | exact PtrInv_setCh c _ _ h (fun sj => ⟨rfl, rfl⟩)
      | exact h
      | exact PtrInv_of_channels rfl h

theorem write_emu_ptrs (c : Chip) (a d : Nat) (h : PtrInv c) :
    PtrInv (ESFM_write_reg_emu c a d) := by
  unfold ESFM_write_reg_emu
  dsimp only
  repeat' split
  all_goals
    first
      | exact h
      | exact PtrInv_of_channels rfl h

theorem write_reg_ptrs (c : Chip) (a d : Nat) (h : PtrInv c) :
    PtrInv (ESFM_write_reg c a d) := by
  unfold ESFM_write_reg
  split
  · exact write_native_ptrs c a d h
  · exact write_emu_ptrs c a d h

theorem generate_ptrs (c : Chip) (h : PtrInv c) : PtrInv (ESFM_generate c).1 := by
  have hf : ∀ (l : List Nat) (a : Chip),
      PtrInv a → PtrInv (l.foldl ESFM_accum_channel a) := by
    intro l
    induction l with
    | nil => intro a ha; exact ha
    | cons b t ih =>
      intro a ha
      rw [List.foldl_cons]
      refine ih _ (fun cj sj => ⟨?_, ?_⟩)
      · rw [accum_channel_mod]
        exact (ha cj sj).1
      · rw [accum_channel_keyptr]
        exact (ha cj sj).2
  unfold ESFM_generate
  dsimp only
  refine PtrInv_of_channels (update_timers_channels _) ?_
  exact hf _ _ (fun cj sj => h cj sj)

theorem init_ptrs : PtrInv ESFM_init := fun _ _ => ⟨rfl, rfl⟩

/-- Claim C7: in every reachable chip state (ESFM_init followed by any
sequence of ticks and register writes), every slot's mod_input pointer is
the one ESFM_init set (slot 0: its own feedback_buf; slots 1..3: the
preceding slot's output), and every slot's key_on pointer observes its
channel's key_on_2 exactly for slots 2-3 of channels 16 and 17 and the
channel's key_on otherwise. -/
theorem claim_C7 (c : Chip) (h : Reach c) : PtrInv c := by
  induction h with
  | init => exact init_ptrs
  | gen c hc ih => exact generate_ptrs c ih
  | write c a d hc ih => exact write_reg_ptrs c a d ih

/-- Witness for claim C7 at the initial state. -/
theorem claim_C7_witness : PtrInv ESFM_init := claim_C7 ESFM_init Reach.init

/- ------------------------------------------------------------------- -/
/- Unrecognized register addresses (claim C9)                           -/

/-- Claim C9: an address the active decoder does not recognize leaves the
chip unchanged on ESFM_write_reg, and ESFM_readback_reg returns 0 for
it. -/
theorem claim_C9 (chip : Chip) (a d : Nat)
    (h : reg_recognized chip.native_mode a = false) :
    ESFM_write_reg chip a d = chip ∧ (ESFM_readback_reg chip a).1 = 0 := by
  unfold reg_recognized at h
  unfold ESFM_write_reg ESFM_readback_reg
  by_cases hn : chip.native_mode = true
  · rw [if_pos hn] at h
    unfold native_recognized at h
    dsimp only at h
    rw [Bool.or_eq_false_iff, Bool.or_eq_false_iff, Bool.or_eq_false_iff,
        Bool.or_eq_false_iff, Bool.or_eq_false_iff] at h
    obtain ⟨⟨⟨⟨⟨h0, h402⟩, h403⟩, h404⟩, h408⟩, h501⟩ := h
    rw [decide_eq_false_iff_not] at h0
    have hK : KEY_ON_REGS_START = 576 := rfl
    constructor
    · rw [if_pos hn]
      unfold ESFM_write_reg_native
      dsimp only
      rw [if_neg (by omega), if_neg (by omega), if_neg (by omega),
          if_neg (by simp [h402]), if_neg (by simp [h403]), if_neg (by simp [h404]),
          if_neg (by simp [h408]), if_neg (by simp [h501])]
    · rw [if_pos hn]
      unfold ESFM_readback_reg_native
      dsimp only
      rw [if_neg (by omega), if_neg (by omega), if_neg (by omega),
          if_neg (by simp [h402]), if_neg (by simp [h403]), if_neg (by simp [h404]),
          if_neg (by simp [h408]), if_neg (by simp [h501])]
  · rw [if_neg hn] at h
    unfold emu_recognized at h
    dsimp only at h
    refine ⟨?_, by rw [if_neg hn]⟩
    rw [if_neg hn]
    unfold ESFM_write_reg_emu
    dsimp only
    by_cases hf0 : (a &&& 0xff &&& 0xf0 == 0) = true
    · rw [if_pos hf0]
      simp only [hf0, Bool.true_and] at h
      by_cases hh : (a &&& 0x100 != 0) = true
      · rw [if_pos hh]
        rw [if_pos hh] at h
        rw [Bool.or_eq_false_iff] at h
        rw [if_neg (by simp [h.1]), if_neg (by simp [h.2])]
      · rw [if_neg hh]
        rw [if_neg hh] at h
        rw [if_neg (by simp [h])]
    · rw [if_neg hf0]

/-- Witness for claim C9: a freshly initialized chip is in emu mode, and
register 0x20 is not decoded there. -/
theorem claim_C9_witness :
    ESFM_write_reg ESFM_init 0x20 0x55 = ESFM_init ∧
    (ESFM_readback_reg ESFM_init 0x20).1 = 0 :=
  claim_C9 ESFM_init 0x20 0x55 (by decide)

/- ------------------------------------------------------------------- -/
/- Readback side effects (claim C10)                                    -/

theorem setSlot_getSlot (ch : Channel) (i : Nat) :
    setSlot ch i (getSlot ch i) = ch := by
  have hs : (fun j : Fin 4 => if j.val = i % 4
        then ch.slots ⟨i % 4, Nat.mod_lt _ (by decide)⟩ else ch.slots j)
      = ch.slots := by
    funext j
    by_cases hj : j.val = i % 4
    · rw [if_pos hj]
      exact congrArg ch.slots (Fin.ext hj.symm)
    · rw [if_neg hj]
  unfold setSlot getSlot
  rw [hs]

theorem setCh_getCh (c : Chip) (i : Nat) :
    setCh c i (getCh c i) = c := by
  have hs : (fun j : Fin 18 => if j.val = i % 18
        then c.channels ⟨i % 18, Nat.mod_lt _ (by decide)⟩ else c.channels j)
      = c.channels := by
    funext j
    by_cases hj : j.val = i % 18
    · rw [if_pos hj]
      exact congrArg c.channels (Fin.ext hj.symm)
    · rw [if_neg hj]
  unfold setCh getCh
  rw [hs]

theorem slot_readback_snd (s : Slot) (r : Nat) (h : ¬ r &&& 7 = 1) :
    (ESFM_slot_readback s r).2 = s := by
  unfold ESFM_slot_readback
  dsimp only
  repeat' split
  all_goals simp_all

theorem slot_readback_snd_ksl (s : Slot) (r : Nat) (h : r &&& 7 = 1) :
    (ESFM_slot_readback s r).2 = ESFM_envelope_update_ksl s := by
  unfold ESFM_slot_readback
  dsimp only
  rw [if_neg (by simp [h]), if_pos (by simp [h])]

/-- Claim C10: native-mode register readback is not side-effect-free.  For
a slot register address, readback of register index 1 stores the
recomputed KSL offset into the slot, while every other register index
leaves the chip unchanged; reading back register 1 of channel 0 slot 0 on
a fresh native-mode chip really does change the state. -/
theorem claim_C10 (chip : Chip) (a : Nat)
    (hn : chip.native_mode = true) (hs : a &&& 0x7ff < KEY_ON_REGS_START) :
    (ESFM_readback_reg chip a).2
      = (if a &&& 0x7ff &&& 0x07 = 1 then
          setCh chip ((a &&& 0x7ff) >>> 5)
            (setSlot (getCh chip ((a &&& 0x7ff) >>> 5)) (((a &&& 0x7ff) >>> 3) &&& 0x03)
              (ESFM_envelope_update_ksl
                (getSlot (getCh chip ((a &&& 0x7ff) >>> 5)) (((a &&& 0x7ff) >>> 3) &&& 0x03))))
         else chip) ∧
    (ESFM_readback_reg nativeInit 1).2 ≠ nativeInit := by
  constructor
  · unfold ESFM_readback_reg ESFM_readback_reg_native
    rw [if_pos hn]
    dsimp only
    rw [if_pos hs]
    have hand : a &&& 0x7ff &&& 0x07 &&& 7 = a &&& 0x7ff &&& 0x07 := by
      rw [Nat.and_assoc, show (7 : Nat) &&& 7 = 7 by decide]
    by_cases hr : a &&& 0x7ff &&& 0x07 = 1
    · rw [if_pos hr]
      dsimp only
      rw [slot_readback_snd_ksl _ _ (by rw [hand]; exact hr)]
    · rw [if_neg hr]
      dsimp only
      rw [slot_readback_snd _ _ (by rw [hand]; exact hr), setSlot_getSlot, setCh_getCh]
  · intro heq
    have h1 : (getSlot (getCh (ESFM_readback_reg nativeInit 1).2 0) 0).sIn.eg_ksl_offset
        = 18446744073709551360 := by decide
    rw [heq] at h1
    have h2 : (getSlot (getCh nativeInit 0) 0).sIn.eg_ksl_offset = 0 := rfl
    rw [h2] at h1
    exact absurd h1 (by decide)

/-- Witness for claim C10 at channel 0, slot 1, register index 1. -/
theorem claim_C10_witness :
    (ESFM_readback_reg nativeInit 9).2
      = (if 9 &&& 0x7ff &&& 0x07 = 1 then
          setCh nativeInit ((9 &&& 0x7ff) >>> 5)
            (setSlot (getCh nativeInit ((9 &&& 0x7ff) >>> 5)) (((9 &&& 0x7ff) >>> 3) &&& 0x03)
              (ESFM_envelope_update_ksl
                (getSlot (getCh nativeInit ((9 &&& 0x7ff) >>> 5)) (((9 &&& 0x7ff) >>> 3) &&& 0x03))))
         else nativeInit) ∧
    (ESFM_readback_reg nativeInit 1).2 ≠ nativeInit :=
  claim_C10 nativeInit 9 rfl (by decide)

/- ------------------------------------------------------------------- -/
/- The delayed re-attack gate (claim C3)                                -/

/-- Claim C3, evaluated on the code at a separating input: with eg_timer
equal to 0 (so eg_timer & (1 << env_delay) = 0) but bit env_delay of
global_timer set, ESFM_envelope_calc still decrements the delay counter:
the decrement is gated by global_timer, not by eg_timer as the spec states
is normative. -/
theorem claim_C3_code_eval :
    (ESFM_envelope_calc c3_chip c3_channel c3_slot).sIn.eg_delay_counter = 4 ∧
    c3_chip.eg_timer &&& (1 <<< c3_slot.env_delay) = 0 ∧
    c3_chip.global_timer &&& (1 <<< c3_slot.env_delay) ≠ 0 := by
  refine ⟨?_, ?_, ?_⟩ <;> decide

/- ------------------------------------------------------------------- -/
/- KSL offset recompute on writes (claim C4)                            -/

/-- Claim C4, evaluated on the code: writing 0x1f to slot register index 5
of channel 0 slot 0 (setting block = 7 and f_num = 0x300) leaves the
stored eg_ksl_offset untouched at 0, whereas the spec formula requires
212; ESFM_slot_write never calls ESFM_envelope_update_ksl in this
source. -/
theorem claim_C4_code_eval :
    (getSlot (getCh (ESFM_write_reg nativeInit 5 0x1f) 0) 0).sIn.eg_ksl_offset = 0 ∧
    (getSlot (getCh (ESFM_write_reg nativeInit 5 0x1f) 0) 0).f_num = 0x300 ∧
    (getSlot (getCh (ESFM_write_reg nativeInit 5 0x1f) 0) 0).block = 7 ∧
    spec_ksl_offset 0x300 7 = 212 := by
  refine ⟨?_, ?_, ?_, ?_⟩ <;> decide

/- ------------------------------------------------------------------- -/
/- The second key-on registers (claim C5)                               -/

/-- Claim C5, evaluated on the code: the native-mode write of 1 to address
593 sets key_on_2 of channel 1 - not channel 16 or 17 - because the C
expression 16 + address & 0x01 parses as (16 + address) & 0x01; channels
16 and 17 are left untouched. -/
theorem claim_C5_code_eval :
    (getCh (ESFM_write_reg nativeInit 593 1) 1).key_on_2 = true ∧
    (getCh nativeInit 1).key_on_2 = false ∧
    (getCh (ESFM_write_reg nativeInit 593 1) 16).key_on = false ∧
    (getCh (ESFM_write_reg nativeInit 593 1) 16).key_on_2 = false ∧
    (getCh (ESFM_write_reg nativeInit 593 1) 17).key_on = false ∧
    (getCh (ESFM_write_reg nativeInit 593 1) 17).key_on_2 = false := by
  refine ⟨?_, ?_, ?_, ?_, ?_, ?_⟩ <;> decide

end ESFM
